import Mathlib

/-!
# ESP32 leakage detector: debouncer and alert scheduling

A shallow embedding of `src/main.cpp`.  The file has four layers.

* `formatDuration`, `sendLeakageAlert`, `sendRecoveryNotification`: the message helpers.
  C strings are modelled as their UTF-8 byte sequences, because `snprintf` cuts the text
  at a byte position.
* `checkLeakageState`: the debouncer.  Its two function-local statics are the record
  `Statics`; the global `leakageDetected` it reads is passed in.
* `loop`: one pass of the main loop.  Every `millis()` call site has its own reading in
  `Clock`; the properties below are about `Clock.uniform now`, one reading per pass.

`unsigned long` is 32 bits wide on the ESP32; time stamps are natural numbers and the
subtraction of the source is `ulongSub`, taken modulo `2 ^ 32`.

* `sendToWechatWebhook`: the transport, with what it meets on the network as an input;
  `loopBodyDeliver` hands every notification text to it.

The WiFi management (`connectWiFi`) and the LED driver (`setLEDs`) write none of the
variables modelled here, and neither does the transport.  A notification is recorded at
the point where the source hands its text to `sendToWechatWebhook`.

`Debouncer` is the debouncer as the specification words it, `formatDurationSpec` the
rendering as the specification words it; both are compared with the code.
-/

namespace LeakageDetection

/-! ## Constants and machine arithmetic -/

/-- Arduino pin level `LOW` (the comparator pulls the pin low while leaking). -/
def LOW : Bool := false

/-- Arduino pin level `HIGH`. -/
def HIGH : Bool := true

/-- Reminder interval in milliseconds (`ALERT_INTERVAL`). -/
def ALERT_INTERVAL : Nat := 30000

/-- Debounce time in milliseconds (`STATE_DEBOUNCE_TIME`). -/
def STATE_DEBOUNCE_TIME : Nat := 100

/-- Number of values of an `unsigned long` on the target, `2 ^ 32`. -/
def ULONG_RANGE : Nat := 4294967296

/-- Subtraction of two `unsigned long` values: the difference modulo `2 ^ 32`. -/
def ulongSub (a b : Nat) : Nat :=
  (a % ULONG_RANGE + ULONG_RANGE - b % ULONG_RANGE) % ULONG_RANGE

/-! ## Text helpers -/

/-- UTF-8 bytes of a string literal of the source file. -/
def utf8 (s : String) : List Nat :=
  s.data.flatMap fun c => (String.utf8EncodeChar c).map UInt8.toNat

/-- Bytes left in a buffer of `size` bytes by `snprintf(buffer, size, ...)` when the
formatted text is `text`: at most `size - 1` bytes, then the terminator. -/
def snprintf (size : Nat) (text : String) : List Nat :=
  (utf8 text).take (size - 1)

/-- Bytes of the string returned by `formatDuration(milliseconds)`; `%lu` prints in
decimal without padding and the buffer is `char buffer[20]`. -/
def formatDuration (milliseconds : Nat) : List Nat :=
  let seconds := milliseconds / 1000
  let minutes := seconds / 60
  let hours := minutes / 60
  let minutes := minutes % 60
  let seconds := seconds % 60
  if hours > 0 then
    snprintf 20
      (toString hours ++ "小时" ++ toString minutes ++ "分" ++ toString seconds ++ "秒")
  else if minutes > 0 then
    snprintf 20 (toString minutes ++ "分" ++ toString seconds ++ "秒")
  else
    snprintf 20 (toString seconds ++ "秒")

/-- Reference rendering of a duration, written from the specification: whole hours,
minutes and seconds by integer division, leading zero units omitted. -/
def formatDurationSpec (ms : Nat) : String :=
  let h := ms / 3600000
  let m := (ms / 60000) % 60
  let s := (ms / 1000) % 60
  if h > 0 then
    toString h ++ "小时" ++ toString m ++ "分" ++ toString s ++ "秒"
  else if m > 0 then
    toString m ++ "分" ++ toString s ++ "秒"
  else
    toString s ++ "秒"

/-- Number of decimal digits of a value below `10000`. -/
def decimalWidth (n : Nat) : Nat :=
  if n < 10 then 1 else if n < 100 then 2 else if n < 1000 then 3 else 4

/-! ## Notifications -/

/-- The three leak messages the program sends, with the duration each one computes. -/
inductive Notification where
  | FirstAlert
  | RepeatAlert (leakDuration : Nat)
  | Recovery (leakDuration : Nat)
  deriving DecidableEq, Repr

/-- Text handed to `Serial.println` and `sendToWechatWebhook` for a notification. -/
def Notification.message : Notification → List Nat
  | .FirstAlert => utf8 "🚨 检测到水泄漏！\n" ++ utf8 "发现泄露！请立即处理！"
  | .RepeatAlert leakDuration =>
      utf8 "🚨 水泄漏持续中！\n" ++
        (utf8 "泄漏时间: " ++ formatDuration leakDuration ++ utf8 "\n") ++
        utf8 "请尽快处理！"
  | .Recovery leakDuration =>
      utf8 "✅ 水泄漏已恢复！\n" ++ (utf8 "总泄漏时间: " ++ formatDuration leakDuration)

/-- The call `sendLeakageAlert(isFirst)` when `millis()` reads `millis`: the duration is
computed first, the first alert then ignores it. -/
def sendLeakageAlert (isFirst : Bool) (millis leakStartTime : Nat) : Notification :=
  let leakDuration := ulongSub millis leakStartTime
  if isFirst then .FirstAlert else .RepeatAlert leakDuration

/-- The call `sendRecoveryNotification()`: nothing is sent unless `leakStartTime > 0`. -/
def sendRecoveryNotification (millis leakStartTime : Nat) : List Notification :=
  if leakStartTime > 0 then
    let leakDuration := ulongSub millis leakStartTime
    [.Recovery leakDuration]
  else
    []

/-! ## Program state -/

/-- The enumeration `LeakageState`. -/
inductive LeakageState where
  | STATE_NORMAL
  | STATE_LEAKAGE_DETECTED
  | STATE_RECOVERED
  deriving DecidableEq, Repr

/-- The global variables of the program. -/
structure Globals where
  leakageState : LeakageState
  lastReportedState : LeakageState
  leakStartTime : Nat
  lastAlertTime : Nat
  lastStateChangeTime : Nat
  isFirstAlert : Bool
  leakageDetected : Bool
  deriving DecidableEq, Repr

/-- The globals as initialised at program start. -/
def Globals.initial : Globals where
  leakageState := .STATE_NORMAL
  lastReportedState := .STATE_NORMAL
  leakStartTime := 0
  lastAlertTime := 0
  lastStateChangeTime := 0
  isFirstAlert := true
  leakageDetected := false

/-- The function-local statics of `checkLeakageState`; `lastState` is a pin level. -/
structure Statics where
  lastState : Bool
  lastChangeTime : Nat
  deriving DecidableEq, Repr

/-- Statics after their initialisers ran, on the first call: `lastState` takes the pin
level read by the initialiser, `lastChangeTime` is `0`. -/
def Statics.initial (initRead : Bool) : Statics where
  lastState := initRead
  lastChangeTime := 0

/-- Statics and globals together. -/
structure System where
  statics : Statics
  globals : Globals
  deriving DecidableEq, Repr

/-! ## The debouncer -/

/-- The body of `checkLeakageState()`: `pin` is the level read by `digitalRead(IO_D0)`,
`millis` the reading of `millis()`, `leakageDetected` the global.  Returns the result
and the updated statics. -/
def checkLeakageState (st : Statics) (leakageDetected : Bool) (pin : Bool) (millis : Nat) :
    Bool × Statics :=
  let currentState := pin
  let currentTime := millis
  let st :=
    if currentState != st.lastState then
      { st with lastChangeTime := currentTime, lastState := currentState }
    else st
  if ulongSub currentTime st.lastChangeTime > STATE_DEBOUNCE_TIME then
    (currentState == LOW, st)
  else
    (leakageDetected, st)

/-! ## The main loop -/

/-- Readings of `millis()` during one pass of `loop()`, one per call site. -/
structure Clock where
  /-- Reading inside `checkLeakageState`. -/
  check : Nat
  /-- Reading stored in `lastStateChangeTime`. -/
  stateChange : Nat
  /-- Reading stored in `leakStartTime`. -/
  leakStart : Nat
  /-- Reading stored in `lastAlertTime` at leak onset. -/
  onsetAlert : Nat
  /-- Reading inside `sendLeakageAlert(true)` or `sendRecoveryNotification()`. -/
  send : Nat
  /-- Reading `currentTime` of the reminder block. -/
  sustained : Nat
  /-- Reading inside `sendLeakageAlert(false)`. -/
  sustainedSend : Nat
  deriving DecidableEq, Repr

/-- One clock reading for the whole pass. -/
def Clock.uniform (now : Nat) : Clock where
  check := now
  stateChange := now
  leakStart := now
  onsetAlert := now
  send := now
  sustained := now
  sustainedSend := now

/-- The state-change block of `loop()`, `if (currentLeakage != leakageDetected) ...`. -/
def loopStateChange (g : Globals) (currentLeakage : Bool) (c : Clock) :
    Globals × List Notification :=
  if currentLeakage != g.leakageDetected then
    let g := { g with leakageDetected := currentLeakage, lastStateChangeTime := c.stateChange }
    if g.leakageDetected then
      let g := { g with
        leakageState := .STATE_LEAKAGE_DETECTED
        leakStartTime := c.leakStart
        lastAlertTime := c.onsetAlert
        isFirstAlert := true }
      (g, [sendLeakageAlert true c.send g.leakStartTime])
    else
      let g := { g with leakageState := .STATE_RECOVERED }
      let sent := sendRecoveryNotification c.send g.leakStartTime
      ({ g with leakStartTime := 0, isFirstAlert := true }, sent)
  else
    (g, [])

/-- The reminder block of `loop()`,
`if (leakageDetected && leakageState == STATE_LEAKAGE_DETECTED) ...`. -/
def loopSustained (g : Globals) (c : Clock) : Globals × List Notification :=
  if g.leakageDetected && g.leakageState == .STATE_LEAKAGE_DETECTED then
    let currentTime := c.sustained
    if ulongSub currentTime g.lastAlertTime ≥ ALERT_INTERVAL then
      let g := { g with lastAlertTime := currentTime }
      let sent := sendLeakageAlert false c.sustainedSend g.leakStartTime
      ({ g with isFirstAlert := false }, [sent])
    else
      (g, [])
  else
    (g, [])

/-- The part of `loop()` after `currentLeakage` was computed: the state-change block,
then (the source does not return in between) the reminder block.  The notifications are
listed in the order they are sent. -/
def loopBody (g : Globals) (currentLeakage : Bool) (c : Clock) : Globals × List Notification :=
  let r1 := loopStateChange g currentLeakage c
  let r2 := loopSustained r1.1 c
  (r2.1, r1.2 ++ r2.2)

/-- The value `checkLeakageState()` returns in a pass of `loop()` from state `s`. -/
def loopReading (s : System) (pin : Bool) (c : Clock) : Bool :=
  (checkLeakageState s.statics s.globals.leakageDetected pin c.check).1

/-- One pass of `loop()`. -/
def loop (s : System) (pin : Bool) (c : Clock) : System × List Notification :=
  let r := checkLeakageState s.statics s.globals.leakageDetected pin c.check
  let currentLeakage := r.1
  let b := loopBody s.globals currentLeakage c
  ({ statics := r.2, globals := b.1 }, b.2)

/-- The value returned by the call of `checkLeakageState()` in `setup()`: the first call,
so the statics are initialised from `initRead` and the global flag still is `false`. -/
def setupReading (initRead pin : Bool) (millis : Nat) : Bool :=
  (checkLeakageState (Statics.initial initRead) Globals.initial.leakageDetected pin millis).1

/-- The function `setup()`: `leakageDetected = checkLeakageState();`. -/
def setup (initRead pin : Bool) (millis : Nat) : System :=
  let r := checkLeakageState (Statics.initial initRead) Globals.initial.leakageDetected pin millis
  { statics := r.2, globals := { Globals.initial with leakageDetected := r.1 } }

/-! ## Runs -/

/-- A raw sample: the pin level and the clock reading of one call of the debouncer. -/
structure Sample where
  pin : Bool
  millis : Nat
  deriving DecidableEq, Repr

/-- A tick of the controller: the debounced input and the clock reading. -/
structure Tick where
  currentLeakage : Bool
  millis : Nat
  deriving DecidableEq, Repr

/-- A pass of the controller part of `loop()` with one clock reading. -/
def tick (g : Globals) (t : Tick) : Globals × List Notification :=
  loopBody g t.currentLeakage (Clock.uniform t.millis)

/-- Globals after a sequence of ticks. -/
def runTicks (g : Globals) : List Tick → Globals
  | [] => g
  | t :: ts => runTicks (tick g t).1 ts

/-- Notifications sent during a sequence of ticks, each with the time of its tick. -/
def traceTicks (g : Globals) : List Tick → List (Nat × Notification)
  | [] => []
  | t :: ts => (tick g t).2.map (fun n => (t.millis, n)) ++ traceTicks (tick g t).1 ts

/-- Notifications sent on each tick of a sequence, tick by tick. -/
def sentTicks (g : Globals) : List Tick → List (List Notification)
  | [] => []
  | t :: ts => (tick g t).2 :: sentTicks (tick g t).1 ts

/-- System state after `setup()` on sample `0` and a pass of `loop()` on each of the
samples `1 .. n`. -/
def systemAt (initRead : Bool) (samples : Nat → Sample) : Nat → System
  | 0 => setup initRead (samples 0).pin (samples 0).millis
  | n + 1 =>
      (loop (systemAt initRead samples n) (samples (n + 1)).pin
        (Clock.uniform (samples (n + 1)).millis)).1

/-- Value returned by the call of `checkLeakageState()` on sample `n`. -/
def readingAt (initRead : Bool) (samples : Nat → Sample) : Nat → Bool
  | 0 => setupReading initRead (samples 0).pin (samples 0).millis
  | n + 1 =>
      loopReading (systemAt initRead samples n) (samples (n + 1)).pin
        (Clock.uniform (samples (n + 1)).millis)

/-- Notifications sent by the pass of `loop()` on sample `n + 1`. -/
def sentAt (initRead : Bool) (samples : Nat → Sample) (n : Nat) : List Notification :=
  (loop (systemAt initRead samples n) (samples (n + 1)).pin
    (Clock.uniform (samples (n + 1)).millis)).2

/-- Readings and notifications of successive passes of `loop()` from state `s`, one
clock reading per pass. -/
def traceLoop (s : System) : List Sample → List (Bool × List Notification)
  | [] => []
  | x :: xs =>
      (loopReading s x.pin (Clock.uniform x.millis),
        (loop s x.pin (Clock.uniform x.millis)).2) ::
      traceLoop (loop s x.pin (Clock.uniform x.millis)).1 xs

/-- Samples taken every 20 ms from `t0` on: three with the pin high (no leak), then
`leakSamples` with the pin low (leak). -/
def debounceScenario (t0 leakSamples : Nat) : List Sample :=
  (List.range 3).map (fun k => (⟨HIGH, t0 + 20 * k⟩ : Sample)) ++
    (List.range leakSamples).map (fun k => (⟨LOW, t0 + 20 * (3 + k)⟩ : Sample))

/-! ## The transport -/

/-- Status code `HTTP_CODE_OK` of the HTTP client library. -/
def HTTP_CODE_OK : Int := 200

/-- What a call of `sendToWechatWebhook` meets: `WiFi.status() != WL_CONNECTED`, a failed
`https.begin(webhookUrl)`, or the code returned by `https.POST(payload)`. -/
inductive Delivery where
  | wifiDisconnected
  | connectFailed
  | response (httpResponseCode : Int)
  deriving DecidableEq, Repr

/-- Effects of a call of `sendToWechatWebhook`: the body posted, if any, and the line
written to `Serial`. -/
structure WebhookEffect where
  posted : Option (List Nat)
  serial : String
  deriving DecidableEq, Repr

/-- The function `sendToWechatWebhook(message)`; it returns nothing and assigns no global.
`errorToString` is the library function `HTTPClient::errorToString`. -/
def sendToWechatWebhook (errorToString : Int → String) (net : Delivery) (message : List Nat) :
    WebhookEffect :=
  match net with
  | .wifiDisconnected =>
      { posted := none, serial := "WiFi disconnected, cannot send message" }
  | .connectFailed =>
      { posted := none, serial := "Failed to connect to webhook" }
  | .response httpResponseCode =>
      let payload :=
        utf8 "\x7b\"msgtype\":\"text\",\"text\":\x7b\"content\":\"" ++ message ++
          utf8 "\"\x7d\x7d"
      if httpResponseCode = HTTP_CODE_OK then
        { posted := some payload, serial := "Message sent successfully" }
      else
        { posted := some payload
          serial := "Send failed, error: " ++ errorToString httpResponseCode ++ "\n" }

/-- The part of `loop()` after `currentLeakage` was computed, with the transport: every
notification text is handed to `sendToWechatWebhook`, which meets `net`. -/
def loopBodyDeliver (errorToString : Int → String) (net : Delivery) (g : Globals)
    (currentLeakage : Bool) (c : Clock) : Globals × List (Notification × WebhookEffect) :=
  let r := loopBody g currentLeakage c
  (r.1, r.2.map (fun n => (n, sendToWechatWebhook errorToString net n.message)))

/-- Globals and delivery attempts of a sequence of ticks, each with what the transport
meets on that tick. -/
def runDeliver (errorToString : Int → String) (g : Globals) :
    List (Delivery × Tick) → Globals × List (List (Notification × WebhookEffect))
  | [] => (g, [])
  | (net, t) :: rest =>
      let r := loopBodyDeliver errorToString net g t.currentLeakage (Clock.uniform t.millis)
      let r2 := runDeliver errorToString r.1 rest
      (r2.1, r.2 :: r2.2)

/-! ## The two-valued lifecycle -/

/-- The stored state collapsed to `STATE_NORMAL` and `STATE_LEAKAGE_DETECTED`. -/
def LeakageState.collapse : LeakageState → LeakageState
  | .STATE_RECOVERED => .STATE_NORMAL
  | st => st

/-- Globals with the lifecycle state collapsed. -/
def Globals.collapse (g : Globals) : Globals :=
  { g with leakageState := g.leakageState.collapse }

/-! ## The debouncer of the specification -/

/-- State of the specification's debouncer: its own `stable_value` instead of the
controller's flag.  `raw` values are leak readings (`true` for a leak). -/
structure Debouncer where
  last_raw : Bool
  last_change_time : Nat
  stable_value : Bool
  deriving DecidableEq, Repr

/-- The operation `sample(raw, now)` of the specification, with the source's window of
100 ms and unsigned subtraction; returns the new state, whose `stable_value` is the
result. -/
def Debouncer.sample (d : Debouncer) (raw : Bool) (now : Nat) : Debouncer :=
  let d := if raw != d.last_raw then { d with last_change_time := now, last_raw := raw } else d
  if ulongSub now d.last_change_time > 100 then { d with stable_value := raw } else d

/-- The specification's debouncer before its first call: `last_raw` and `stable_value`
are initialised from the first raw read at startup.  The specification names no initial
`last_change_time`; it is `0`, as in the source. -/
def Debouncer.initial (firstRaw : Bool) : Debouncer where
  last_raw := firstRaw
  last_change_time := 0
  stable_value := firstRaw

/-- A debouncer of the specification started in `d0`, after the samples `0 .. n`, fed the
leak readings of the pin levels. -/
def debouncerAt (d0 : Debouncer) (samples : Nat → Sample) : Nat → Debouncer
  | 0 => d0.sample ((samples 0).pin == LOW) (samples 0).millis
  | n + 1 =>
      (debouncerAt d0 samples n).sample ((samples (n + 1)).pin == LOW)
        (samples (n + 1)).millis

/-! ## Arithmetic of `ulongSub` -/

theorem ulongSub_self (a : Nat) : ulongSub a a = 0 := by
  unfold ulongSub ULONG_RANGE
  omega

theorem ulongSub_of_le (a b : Nat) (hba : b ≤ a) (ha : a < ULONG_RANGE) :
    ulongSub a b = a - b := by
  unfold ulongSub
  unfold ULONG_RANGE at *
  omega

theorem ulongSub_zero (a : Nat) (ha : a < ULONG_RANGE) : ulongSub a 0 = a := by
  unfold ulongSub
  unfold ULONG_RANGE at *
  omega

/-! ## The blocks of `loop()`, case by case -/

theorem loopStateChange_same (g : Globals) (c : Clock) :
    loopStateChange g g.leakageDetected c = (g, []) := by
  simp [loopStateChange]

theorem loopStateChange_onset (g : Globals) (c : Clock) (h : g.leakageDetected = false) :
    loopStateChange g true c =
      ({ g with
          leakageDetected := true
          lastStateChangeTime := c.stateChange
          leakageState := .STATE_LEAKAGE_DETECTED
          leakStartTime := c.leakStart
          lastAlertTime := c.onsetAlert
          isFirstAlert := true }, [Notification.FirstAlert]) := by
  simp [loopStateChange, h, sendLeakageAlert]

theorem loopStateChange_recover (g : Globals) (c : Clock) (h : g.leakageDetected = true) :
    loopStateChange g false c =
      ({ g with
          leakageDetected := false
          lastStateChangeTime := c.stateChange
          leakageState := .STATE_RECOVERED
          leakStartTime := 0
          isFirstAlert := true }, sendRecoveryNotification c.send g.leakStartTime) := by
  simp [loopStateChange, h]

theorem loopSustained_idle (g : Globals) (c : Clock)
    (h : ¬ (g.leakageDetected = true ∧ g.leakageState = .STATE_LEAKAGE_DETECTED)) :
    loopSustained g c = (g, []) := by
  unfold loopSustained
  split
  · rename_i h1
    simp at h1
    exact absurd h1 h
  · rfl

theorem loopSustained_quiet (g : Globals) (c : Clock)
    (h : ulongSub c.sustained g.lastAlertTime < ALERT_INTERVAL) :
    loopSustained g c = (g, []) := by
  unfold loopSustained
  split
  · simp [Nat.not_le.mpr h]
  · rfl

theorem loopSustained_fire (g : Globals) (c : Clock)
    (h1 : g.leakageDetected = true) (h2 : g.leakageState = .STATE_LEAKAGE_DETECTED)
    (h : ALERT_INTERVAL ≤ ulongSub c.sustained g.lastAlertTime) :
    loopSustained g c =
      ({ g with lastAlertTime := c.sustained, isFirstAlert := false },
        [Notification.RepeatAlert (ulongSub c.sustainedSend g.leakStartTime)]) := by
  simp [loopSustained, h1, h2, h, sendLeakageAlert]

theorem loopSustained_length (g : Globals) (c : Clock) :
    (loopSustained g c).2.length ≤ 1 := by
  unfold loopSustained
  split
  · dsimp only
    split <;> simp
  · simp

theorem sendRecoveryNotification_length (millis leakStartTime : Nat) :
    (sendRecoveryNotification millis leakStartTime).length ≤ 1 := by
  unfold sendRecoveryNotification
  split <;> simp

theorem loopSustained_frame (g : Globals) (c : Clock) :
    (loopSustained g c).1.leakageDetected = g.leakageDetected ∧
    (loopSustained g c).1.leakageState = g.leakageState ∧
    (loopSustained g c).1.leakStartTime = g.leakStartTime := by
  unfold loopSustained
  split
  · dsimp only
    split <;> simp
  · simp

theorem tick_same (g : Globals) (t : Tick) (h : t.currentLeakage = g.leakageDetected) :
    tick g t = loopSustained g (Clock.uniform t.millis) := by
  have h1 := loopStateChange_same g (Clock.uniform t.millis)
  rw [← h] at h1
  simp only [tick, loopBody]
  rw [h1]
  simp

theorem tick_onset (g : Globals) (now : Nat) (h : g.leakageDetected = false) :
    tick g ⟨true, now⟩ =
      ({ g with
          leakageDetected := true
          lastStateChangeTime := now
          leakageState := .STATE_LEAKAGE_DETECTED
          leakStartTime := now
          lastAlertTime := now
          isFirstAlert := true }, [Notification.FirstAlert]) := by
  have h1 := loopStateChange_onset g (Clock.uniform now) h
  simp only [tick, loopBody]
  rw [h1, loopSustained_quiet _ _
    (by simp [Clock.uniform, ulongSub_self, ALERT_INTERVAL])]
  simp [Clock.uniform]

theorem tick_recover (g : Globals) (now : Nat) (h : g.leakageDetected = true) :
    tick g ⟨false, now⟩ =
      ({ g with
          leakageDetected := false
          lastStateChangeTime := now
          leakageState := .STATE_RECOVERED
          leakStartTime := 0
          isFirstAlert := true }, sendRecoveryNotification now g.leakStartTime) := by
  have h1 := loopStateChange_recover g (Clock.uniform now) h
  simp only [tick, loopBody]
  rw [h1, loopSustained_idle _ _ (by simp)]
  simp [Clock.uniform]

theorem tick_lifecycle (g : Globals) (t : Tick) (ht : 0 < t.millis)
    (h : g.leakStartTime ≠ 0 ↔ g.leakageState = LeakageState.STATE_LEAKAGE_DETECTED) :
    (tick g t).1.leakStartTime ≠ 0 ↔
      (tick g t).1.leakageState = LeakageState.STATE_LEAKAGE_DETECTED := by
  obtain ⟨cl, now⟩ := t
  by_cases hedge : cl = g.leakageDetected
  · rw [tick_same g ⟨cl, now⟩ hedge]
    obtain ⟨-, h2, h3⟩ := loopSustained_frame g (Clock.uniform now)
    rw [h2, h3]
    exact h
  · cases cl
    · have hg : g.leakageDetected = true := by
        cases hf : g.leakageDetected
        · exact absurd hf.symm hedge
        · rfl
      rw [tick_recover g now hg]
      simp
    · have hg : g.leakageDetected = false := by
        cases hf : g.leakageDetected
        · rfl
        · exact absurd hf.symm hedge
      rw [tick_onset g now hg]
      simp only [ne_eq, iff_true]
      exact Nat.pos_iff_ne_zero.mp ht

theorem runTicks_lifecycle (ticks : List Tick) (hpos : ∀ t ∈ ticks, 0 < t.millis) :
    ∀ g : Globals,
      (g.leakStartTime ≠ 0 ↔ g.leakageState = LeakageState.STATE_LEAKAGE_DETECTED) →
      ((runTicks g ticks).leakStartTime ≠ 0 ↔
        (runTicks g ticks).leakageState = LeakageState.STATE_LEAKAGE_DETECTED) := by
  induction ticks with
  | nil => intro g h; exact h
  | cons t ts ih =>
    intro g h
    simp only [runTicks]
    apply ih (fun u hu => hpos u (List.mem_cons_of_mem _ hu))
    exact tick_lifecycle g t (hpos t (List.mem_cons_self _ _)) h

/-! ## One tick of the controller -/

/-- C2: with one clock reading per pass, a pass of the loop body sends at most one
notification; on a pass that handled a state change the reminder block sends nothing,
its condition being false there. -/
theorem at_most_one (g : Globals) (currentLeakage : Bool) (now : Nat) :
    (loopBody g currentLeakage (Clock.uniform now)).2.length ≤ 1 ∧
    (currentLeakage ≠ g.leakageDetected →
      (loopSustained (loopStateChange g currentLeakage (Clock.uniform now)).1
          (Clock.uniform now)).2 = [] ∧
      ¬ ((loopStateChange g currentLeakage (Clock.uniform now)).1.leakageDetected = true ∧
         (loopStateChange g currentLeakage (Clock.uniform now)).1.leakageState
            = .STATE_LEAKAGE_DETECTED ∧
         ulongSub now (loopStateChange g currentLeakage (Clock.uniform now)).1.lastAlertTime
            ≥ ALERT_INTERVAL)) := by
  cases hc : currentLeakage <;> cases hg : g.leakageDetected
  · have h1 := loopStateChange_same g (Clock.uniform now)
    rw [hg] at h1
    have h2 := loopSustained_length g (Clock.uniform now)
    simp [loopBody, h1, h2]
  · have h1 := loopStateChange_recover g (Clock.uniform now) hg
    have h2 := sendRecoveryNotification_length (Clock.uniform now).send g.leakStartTime
    rw [h1]
    simp only [loopBody, h1]
    rw [loopSustained_idle _ _ (by simp)]
    simp [h2]
  · have h1 := loopStateChange_onset g (Clock.uniform now) hg
    rw [h1]
    simp only [loopBody, h1]
    rw [loopSustained_quiet _ _
      (by simp [Clock.uniform, ulongSub_self, ALERT_INTERVAL])]
    simp [Clock.uniform, ulongSub_self, ALERT_INTERVAL]
  · have h1 := loopStateChange_same g (Clock.uniform now)
    rw [hg] at h1
    have h2 := loopSustained_length g (Clock.uniform now)
    simp [loopBody, h1, h2]


/-- C3: in a state with the flag set and `STATE_LEAKAGE_DETECTED`, a tick with input
`true` sends a reminder exactly when the unsigned difference `now - lastAlertTime` is at
least 30000; the reminder reports `now - leakStartTime` and `lastAlertTime` becomes
`now`; otherwise nothing is sent and `lastAlertTime` is unchanged.  Without a counter
wrap the unsigned differences are the ordinary ones. -/
theorem repeat_cadence (g : Globals) (now : Nat)
    (hflag : g.leakageDetected = true)
    (hstate : g.leakageState = LeakageState.STATE_LEAKAGE_DETECTED) :
    ((∃ d, Notification.RepeatAlert d ∈ (tick g ⟨true, now⟩).2) ↔
        30000 ≤ ulongSub now g.lastAlertTime) ∧
    (30000 ≤ ulongSub now g.lastAlertTime →
        (tick g ⟨true, now⟩).2 = [Notification.RepeatAlert (ulongSub now g.leakStartTime)] ∧
        (tick g ⟨true, now⟩).1.lastAlertTime = now) ∧
    (ulongSub now g.lastAlertTime < 30000 →
        (tick g ⟨true, now⟩).2 = [] ∧
        (tick g ⟨true, now⟩).1.lastAlertTime = g.lastAlertTime) ∧
    (now < ULONG_RANGE → g.lastAlertTime ≤ now →
        ulongSub now g.lastAlertTime = now - g.lastAlertTime) ∧
    (now < ULONG_RANGE → g.leakStartTime ≤ now →
        ulongSub now g.leakStartTime = now - g.leakStartTime) := by
  have h1 : tick g ⟨true, now⟩ = loopSustained g (Clock.uniform now) :=
    tick_same g ⟨true, now⟩ hflag.symm
  have hfire : 30000 ≤ ulongSub now g.lastAlertTime →
      (tick g ⟨true, now⟩).2 = [Notification.RepeatAlert (ulongSub now g.leakStartTime)] ∧
      (tick g ⟨true, now⟩).1.lastAlertTime = now := by
    intro h
    rw [h1, loopSustained_fire g (Clock.uniform now) hflag hstate h]
    simp [Clock.uniform]
  have hquiet : ulongSub now g.lastAlertTime < 30000 →
      (tick g ⟨true, now⟩).2 = [] ∧
      (tick g ⟨true, now⟩).1.lastAlertTime = g.lastAlertTime := by
    intro h
    rw [h1, loopSustained_quiet g (Clock.uniform now) h]
    simp
  refine ⟨⟨?_, ?_⟩, hfire, hquiet, ?_, ?_⟩
  · rintro ⟨d, hd⟩
    by_contra hlt
    rw [(hquiet (Nat.not_le.mp hlt)).1] at hd
    simp at hd
  · intro h
    exact ⟨ulongSub now g.leakStartTime, by rw [(hfire h).1]; simp⟩
  · intro hb hle
    exact ulongSub_of_le _ _ hle hb
  · intro hb hle
    exact ulongSub_of_le _ _ hle hb

/-- Witness for `repeat_cadence`: a leak that began, and was last reported, at 1000 ms. -/
theorem repeat_cadence_witness :
    (∃ d, Notification.RepeatAlert d ∈
      (tick { Globals.initial with
                leakageDetected := true
                leakageState := LeakageState.STATE_LEAKAGE_DETECTED
                leakStartTime := 1000
                lastAlertTime := 1000 } ⟨true, 31000⟩).2) ↔
      30000 ≤ ulongSub 31000 1000 :=
  (repeat_cadence _ 31000 rfl rfl).1

/-- C4, counterexample: after `setup()` read a leak the flag is set and `leakStartTime`
is `0`; the tick on which the input falls sends no recovery notification. -/
theorem recovery_counterexample :
    (setup LOW LOW 200).globals.leakageDetected = true ∧
    (tick (setup LOW LOW 200).globals ⟨false, 1000⟩).2 = [] ∧
    (tick (setup LOW LOW 200).globals ⟨false, 1000⟩).2 ≠
      [Notification.Recovery (1000 - (setup LOW LOW 200).globals.leakStartTime)] := by
  decide

/-- C4, amended: in a state with the flag set, a tick with input `false` clears the flag,
sets `STATE_RECOVERED`, leaves `leakStartTime = 0` and `isFirstAlert = true`; it sends
exactly one recovery notification with duration `now - leakStartTime` when the start time
held before the tick is non-zero, and no notification when it is `0`. -/
theorem recovery_on_falling_edge (g : Globals) (now : Nat)
    (hflag : g.leakageDetected = true) :
    (tick g ⟨false, now⟩).1.leakageDetected = false ∧
    (tick g ⟨false, now⟩).1.leakageState = LeakageState.STATE_RECOVERED ∧
    (tick g ⟨false, now⟩).1.leakStartTime = 0 ∧
    (tick g ⟨false, now⟩).1.isFirstAlert = true ∧
    (0 < g.leakStartTime →
      (tick g ⟨false, now⟩).2 = [Notification.Recovery (ulongSub now g.leakStartTime)]) ∧
    (g.leakStartTime = 0 → (tick g ⟨false, now⟩).2 = []) ∧
    (now < ULONG_RANGE → g.leakStartTime ≤ now →
      ulongSub now g.leakStartTime = now - g.leakStartTime) := by
  rw [tick_recover g now hflag]
  refine ⟨rfl, rfl, rfl, rfl, ?_, ?_, ?_⟩
  · intro hpos
    simp [sendRecoveryNotification, hpos]
  · intro hz
    simp [sendRecoveryNotification, hz]
  · intro hb hle
    exact ulongSub_of_le _ _ hle hb

/-- Witness for `recovery_on_falling_edge`: a leak that began at 1000 ms ends at 66050 ms. -/
theorem recovery_on_falling_edge_witness :
    (tick { Globals.initial with
              leakageDetected := true
              leakageState := LeakageState.STATE_LEAKAGE_DETECTED
              leakStartTime := 1000
              lastAlertTime := 1000 } ⟨false, 66050⟩).2
      = [Notification.Recovery (ulongSub 66050 1000)] :=
  (recovery_on_falling_edge _ 66050 rfl).2.2.2.2.1 (by decide)

/-- C7, counterexample: with the pin low at both reads and the clock at 50 ms, the first
call returns `false`, not the leak reading `true`. -/
theorem first_reading_counterexample :
    setupReading LOW LOW 50 = false ∧ (LOW == LOW) = true ∧
    setupReading LOW LOW 50 ≠ (LOW == LOW) := by
  decide

/-- C7, amended: the first call returns the leak reading of the first raw sample when the
clock reads more than 100 ms (and the static initialiser read the same level); when the
clock reads at most 100 ms, or the initialiser read the other level, it returns the
initial held output `false`. -/
theorem first_reading (initRead raw : Bool) (now : Nat) (hnow : now < ULONG_RANGE) :
    (100 < now → setupReading raw raw now = (raw == LOW)) ∧
    (now ≤ 100 → setupReading initRead raw now = false) ∧
    (initRead ≠ raw → setupReading initRead raw now = false) := by
  refine ⟨?_, ?_, ?_⟩
  · intro h
    simp [setupReading, checkLeakageState, Statics.initial, ulongSub_zero now hnow,
      STATE_DEBOUNCE_TIME, h]
  · intro h
    have h0 : ¬ 100 < now := Nat.not_lt.mpr h
    by_cases hr : raw = initRead
    · simp [setupReading, checkLeakageState, Statics.initial, ulongSub_zero now hnow,
        STATE_DEBOUNCE_TIME, h0, hr, Globals.initial]
    · simp [setupReading, checkLeakageState, Statics.initial, ulongSub_self,
        STATE_DEBOUNCE_TIME, hr, Globals.initial]
  · intro hr
    have hr2 : ¬ raw = initRead := fun h => hr h.symm
    simp [setupReading, checkLeakageState, Statics.initial, ulongSub_self,
      STATE_DEBOUNCE_TIME, hr2, Globals.initial]

/-- Witness for `first_reading`: at 200 ms a low pin is read as a leak. -/
theorem first_reading_witness :
    200 < ULONG_RANGE ∧ setupReading LOW LOW 200 = (LOW == LOW) :=
  ⟨by decide, (first_reading LOW LOW 200 (by decide)).1 (by decide)⟩

/-- C9, counterexample: a leak onset on a tick whose clock reads `0` gives
`STATE_LEAKAGE_DETECTED` with `leakStartTime = 0`. -/
theorem lifecycle_counterexample :
    (runTicks Globals.initial [⟨true, 0⟩]).leakageState
        = LeakageState.STATE_LEAKAGE_DETECTED ∧
    (runTicks Globals.initial [⟨true, 0⟩]).leakStartTime = 0 ∧
    ¬ ((runTicks Globals.initial [⟨true, 0⟩]).leakStartTime ≠ 0 ↔
        (runTicks Globals.initial [⟨true, 0⟩]).leakageState
          = LeakageState.STATE_LEAKAGE_DETECTED) := by
  decide

/-- C9, amended: in every state reached from the initial state by ticks with arbitrary
debounced inputs and non-zero time stamps, `leakStartTime` is non-zero if and only if
`leakageState` is `STATE_LEAKAGE_DETECTED`. -/
theorem lifecycle_invariant (ticks : List Tick) (hpos : ∀ t ∈ ticks, 0 < t.millis) :
    (runTicks Globals.initial ticks).leakStartTime ≠ 0 ↔
      (runTicks Globals.initial ticks).leakageState
        = LeakageState.STATE_LEAKAGE_DETECTED :=
  runTicks_lifecycle ticks hpos Globals.initial (by decide)

/-- Witness for `lifecycle_invariant`: three ticks, the leak begins on the second. -/
theorem lifecycle_invariant_witness :
    (runTicks Globals.initial [⟨false, 50⟩, ⟨true, 100⟩, ⟨true, 150⟩]).leakStartTime ≠ 0 ↔
      (runTicks Globals.initial [⟨false, 50⟩, ⟨true, 100⟩, ⟨true, 150⟩]).leakageState
        = LeakageState.STATE_LEAKAGE_DETECTED :=
  lifecycle_invariant [⟨false, 50⟩, ⟨true, 100⟩, ⟨true, 150⟩] (by decide)

/-! ## `formatDuration` against its reference rendering -/

theorem utf8_append (a b : String) : utf8 (a ++ b) = utf8 a ++ utf8 b := by
  simp [utf8, String.data_append]

theorem formatDuration_eq_snprintf (ms : Nat) :
    formatDuration ms = snprintf 20 (formatDurationSpec ms) := by
  have h1 : ms / 1000 / 60 / 60 = ms / 3600000 := by
    rw [Nat.div_div_eq_div_mul, Nat.div_div_eq_div_mul]
  have h2 : ms / 1000 / 60 = ms / 60000 := by
    rw [Nat.div_div_eq_div_mul]
  simp only [formatDuration, formatDurationSpec]
  rw [h1, h2]
  split_ifs <;> rfl

theorem formatDuration_eq_spec_iff (ms : Nat) :
    formatDuration ms = utf8 (formatDurationSpec ms) ↔
      (utf8 (formatDurationSpec ms)).length ≤ 19 := by
  rw [formatDuration_eq_snprintf]
  simp only [snprintf]
  exact List.take_eq_self_iff _

set_option maxRecDepth 100000 in
theorem utf8_toString_length_block0 :
    ∀ n, n < 200 → (utf8 (toString n)).length = decimalWidth n := by
  decide

set_option maxRecDepth 100000 in
theorem utf8_toString_length_block1 :
    ∀ n, n < 200 → (utf8 (toString (n + 200))).length = decimalWidth (n + 200) := by
  decide

set_option maxRecDepth 100000 in
theorem utf8_toString_length_block2 :
    ∀ n, n < 200 → (utf8 (toString (n + 400))).length = decimalWidth (n + 400) := by
  decide

set_option maxRecDepth 100000 in
theorem utf8_toString_length_block3 :
    ∀ n, n < 200 → (utf8 (toString (n + 600))).length = decimalWidth (n + 600) := by
  decide

set_option maxRecDepth 100000 in
theorem utf8_toString_length_block4 :
    ∀ n, n < 200 → (utf8 (toString (n + 800))).length = decimalWidth (n + 800) := by
  decide

set_option maxRecDepth 100000 in
theorem utf8_toString_length_block5 :
    ∀ n, n < 200 → (utf8 (toString (n + 1000))).length = decimalWidth (n + 1000) := by
  decide

theorem utf8_toString_length (n : Nat) (h : n < 1200) :
    (utf8 (toString n)).length = decimalWidth n := by
  by_cases h0 : n < 200
  · exact utf8_toString_length_block0 n h0
  by_cases h1 : n < 400
  · have := utf8_toString_length_block1 (n - 200) (by omega)
    rwa [Nat.sub_add_cancel (by omega)] at this
  by_cases h2 : n < 600
  · have := utf8_toString_length_block2 (n - 400) (by omega)
    rwa [Nat.sub_add_cancel (by omega)] at this
  by_cases h3 : n < 800
  · have := utf8_toString_length_block3 (n - 600) (by omega)
    rwa [Nat.sub_add_cancel (by omega)] at this
  by_cases h4 : n < 1000
  · have := utf8_toString_length_block4 (n - 800) (by omega)
    rwa [Nat.sub_add_cancel (by omega)] at this
  · have := utf8_toString_length_block5 (n - 1000) (by omega)
    rwa [Nat.sub_add_cancel (by omega)] at this

theorem formatDurationSpec_length (ms : Nat) (hms : ms < ULONG_RANGE) :
    (utf8 (formatDurationSpec ms)).length ≤ 19 ↔
      ¬ (1000 ≤ ms / 3600000 ∧ 10 ≤ ms / 60000 % 60 ∧ 10 ≤ ms / 1000 % 60) := by
  have hh : ms / 3600000 < 1200 := by
    unfold ULONG_RANGE at hms
    omega
  have hm : ms / 60000 % 60 < 1200 := by omega
  have hs : ms / 1000 % 60 < 1200 := by omega
  have hm60 : ms / 60000 % 60 < 60 := by omega
  have hs60 : ms / 1000 % 60 < 60 := by omega
  have k1 : (utf8 "小时").length = 6 := by decide
  have k2 : (utf8 "分").length = 3 := by decide
  have k3 : (utf8 "秒").length = 3 := by decide
  have lh := utf8_toString_length _ hh
  have lm := utf8_toString_length _ hm
  have ls := utf8_toString_length _ hs
  unfold formatDurationSpec
  simp only []
  split
  · simp only [utf8_append, List.length_append, k1, k2, k3, lh, lm, ls]
    unfold decimalWidth
    split_ifs <;> omega
  · split
    · simp only [utf8_append, List.length_append, k1, k2, k3, lh, lm, ls]
      unfold decimalWidth
      split_ifs <;> omega
    · simp only [utf8_append, List.length_append, k1, k2, k3, lh, lm, ls]
      unfold decimalWidth
      split_ifs <;> omega

theorem formatDuration_eq_spec_iff_fits (ms : Nat) (hms : ms < ULONG_RANGE) :
    formatDuration ms = utf8 (formatDurationSpec ms) ↔
      ¬ (1000 ≤ ms / 3600000 ∧ 10 ≤ ms / 60000 % 60 ∧ 10 ≤ ms / 1000 % 60) := by
  rw [formatDuration_eq_spec_iff, formatDurationSpec_length ms hms]

/-- C8, failing input: for 3600610000 ms (1000 h 10 min 10 s) the reference rendering has
20 bytes and `formatDuration` returns only its first 19, cutting the last character in
two; the three examples of the claim are rendered in full. -/
theorem formatDuration_truncated :
    formatDurationSpec 3600610000 = "1000小时10分10秒" ∧
    (utf8 (formatDurationSpec 3600610000)).length = 20 ∧
    formatDuration 3600610000 = (utf8 "1000小时10分10秒").take 19 ∧
    formatDuration 3600610000 ≠ utf8 (formatDurationSpec 3600610000) ∧
    formatDuration 5000 = utf8 "5秒" ∧
    formatDuration 125000 = utf8 "2分5秒" ∧
    formatDuration 3725000 = utf8 "1小时2分5秒" := by
  refine ⟨by decide, by decide, by decide, by decide, by decide, by decide, by decide⟩

/-! ## The debouncer along a run -/

theorem checkLeakageState_statics (st : Statics) (flag pin : Bool) (now : Nat) :
    (checkLeakageState st flag pin now).2 =
      if pin = st.lastState then st else { lastState := pin, lastChangeTime := now } := by
  unfold checkLeakageState
  by_cases h : pin = st.lastState
  · simp only [h, bne_self_eq_false, Bool.false_eq_true, if_false, if_true]
    split <;> rfl
  · have hb : (pin != st.lastState) = true := by simpa using h
    simp only [hb, if_true, h, if_false]
    split <;> rfl

theorem checkLeakageState_value (st : Statics) (flag pin : Bool) (now : Nat) :
    (checkLeakageState st flag pin now).1 =
      if STATE_DEBOUNCE_TIME <
          ulongSub now (checkLeakageState st flag pin now).2.lastChangeTime then
        pin == LOW
      else flag := by
  unfold checkLeakageState
  by_cases h : pin = st.lastState
  · simp only [h, bne_self_eq_false, Bool.false_eq_true, if_false]
    split <;> simp_all
  · have hb : (pin != st.lastState) = true := by simpa using h
    simp only [hb, if_true]
    split <;> simp_all

theorem loopBody_flag (g : Globals) (currentLeakage : Bool) (c : Clock) :
    (loopBody g currentLeakage c).1.leakageDetected = currentLeakage := by
  simp only [loopBody]
  rw [(loopSustained_frame _ c).1]
  unfold loopStateChange
  by_cases h : currentLeakage = g.leakageDetected
  · simp [h]
  · have hb : (currentLeakage != g.leakageDetected) = true := by simpa using h
    simp only [hb, if_true]
    split <;> simp_all

theorem systemAt_succ_statics (initRead : Bool) (samples : Nat → Sample) (n : Nat) :
    (systemAt initRead samples (n + 1)).statics =
      (checkLeakageState (systemAt initRead samples n).statics
        (systemAt initRead samples n).globals.leakageDetected
        (samples (n + 1)).pin (samples (n + 1)).millis).2 := by
  simp [systemAt, loop, Clock.uniform]

theorem systemAt_flag (initRead : Bool) (samples : Nat → Sample) (n : Nat) :
    (systemAt initRead samples n).globals.leakageDetected = readingAt initRead samples n := by
  cases n with
  | zero => simp [systemAt, readingAt, setup, setupReading]
  | succ n =>
    simp only [systemAt, readingAt, loop, loopReading]
    rw [loopBody_flag]

theorem checkLeakageState_lastState (st : Statics) (flag pin : Bool) (now : Nat) :
    (checkLeakageState st flag pin now).2.lastState = pin := by
  rw [checkLeakageState_statics]
  split
  · rename_i h
    exact h.symm
  · rfl

theorem systemAt_zero_statics (initRead : Bool) (samples : Nat → Sample) :
    (systemAt initRead samples 0).statics =
      (checkLeakageState (Statics.initial initRead) false
        (samples 0).pin (samples 0).millis).2 := by
  simp [systemAt, setup, Globals.initial]

theorem systemAt_lastState (initRead : Bool) (samples : Nat → Sample) (n : Nat) :
    (systemAt initRead samples n).statics.lastState = (samples n).pin := by
  cases n with
  | zero => rw [systemAt_zero_statics, checkLeakageState_lastState]
  | succ n => rw [systemAt_succ_statics, checkLeakageState_lastState]

theorem systemAt_succ_statics_eq (initRead : Bool) (samples : Nat → Sample) (n : Nat) :
    (systemAt initRead samples (n + 1)).statics =
      if (samples (n + 1)).pin = (samples n).pin then (systemAt initRead samples n).statics
      else { lastState := (samples (n + 1)).pin, lastChangeTime := (samples (n + 1)).millis } := by
  rw [systemAt_succ_statics, checkLeakageState_statics, systemAt_lastState]

theorem millis_mono (samples : Nat → Sample) (N : Nat)
    (hmono : ∀ k, k < N → (samples k).millis ≤ (samples (k + 1)).millis) :
    ∀ n, n ≤ N → ∀ k, k ≤ n → (samples k).millis ≤ (samples n).millis := by
  intro n
  induction n with
  | zero =>
    intro _ k hk
    rw [Nat.le_zero.mp hk]
  | succ n ih =>
    intro hn k hk
    rcases Nat.lt_or_ge k (n + 1) with h | h
    · exact Nat.le_trans (ih (by omega) k (by omega)) (hmono n (by omega))
    · rw [Nat.le_antisymm hk h]

theorem systemAt_lastChangeTime_le (initRead : Bool) (samples : Nat → Sample) (N : Nat)
    (hmono : ∀ k, k < N → (samples k).millis ≤ (samples (k + 1)).millis) :
    ∀ n, n ≤ N → (systemAt initRead samples n).statics.lastChangeTime ≤ (samples n).millis := by
  intro n
  induction n with
  | zero =>
    intro _
    rw [systemAt_zero_statics, checkLeakageState_statics]
    split <;> simp [Statics.initial]
  | succ n ih =>
    intro hn
    rw [systemAt_succ_statics_eq]
    split
    · exact Nat.le_trans (ih (by omega)) (hmono n (by omega))
    · exact Nat.le_refl _

theorem systemAt_window (initRead : Bool) (samples : Nat → Sample) (N : Nat)
    (hmono : ∀ k, k < N → (samples k).millis ≤ (samples (k + 1)).millis) :
    ∀ n, n ≤ N → ∀ k, k ≤ n →
      (systemAt initRead samples n).statics.lastChangeTime < (samples k).millis →
      (samples k).pin = (samples n).pin := by
  intro n
  induction n with
  | zero =>
    intro _ k hk _
    rw [Nat.le_zero.mp hk]
  | succ n ih =>
    intro hn k hk
    rw [systemAt_succ_statics_eq]
    split
    · rename_i hsame
      intro hlt
      rcases Nat.lt_or_ge k (n + 1) with h | h
      · rw [hsame]
        exact ih (by omega) k (by omega) hlt
      · rw [Nat.le_antisymm hk h]
    · intro hlt
      have := millis_mono samples N hmono (n + 1) hn k hk
      simp only at hlt
      omega

theorem systemAt_stretch (initRead : Bool) (samples : Nat → Sample) (N : Nat)
    (hmono : ∀ k, k < N → (samples k).millis ≤ (samples (k + 1)).millis)
    (i j : Nat) (raw : Bool) (hj : j ≤ N)
    (hraw : ∀ k, i ≤ k → k ≤ j → (samples k).pin = raw) :
    ∀ d, i + d ≤ j →
      (systemAt initRead samples (i + d)).statics.lastChangeTime ≤ (samples i).millis := by
  intro d
  induction d with
  | zero =>
    intro h
    exact systemAt_lastChangeTime_le initRead samples N hmono i (by omega)
  | succ d ih =>
    intro h
    have e : i + (d + 1) = (i + d) + 1 := by omega
    rw [e, systemAt_succ_statics_eq,
      hraw (i + d + 1) (by omega) (by omega), hraw (i + d) (by omega) (by omega)]
    simp only [if_true]
    exact ih (by omega)

theorem readingAt_succ (initRead : Bool) (samples : Nat → Sample) (n : Nat) :
    readingAt initRead samples (n + 1) =
      if STATE_DEBOUNCE_TIME <
          ulongSub (samples (n + 1)).millis
            (systemAt initRead samples (n + 1)).statics.lastChangeTime then
        (samples (n + 1)).pin == LOW
      else readingAt initRead samples n := by
  rw [systemAt_succ_statics, ← systemAt_flag initRead samples n]
  exact checkLeakageState_value (systemAt initRead samples n).statics
    (systemAt initRead samples n).globals.leakageDetected
    (samples (n + 1)).pin (samples (n + 1)).millis

/-- C6: if the samples `i .. j` carry the same pin level and more than 100 ms lie between
sample `i` and sample `j`, the call on sample `j` returns the leak reading of that level
(`true` exactly for `LOW`), for any earlier samples. -/
theorem debounce_stability (initRead : Bool) (samples : Nat → Sample) (i j : Nat) (raw : Bool)
    (hmono : ∀ k, k < j → (samples k).millis ≤ (samples (k + 1)).millis)
    (hbound : ∀ k, k ≤ j → (samples k).millis < ULONG_RANGE)
    (hij : i ≤ j)
    (hraw : ∀ k, i ≤ k → k ≤ j → (samples k).pin = raw)
    (hheld : 100 < (samples j).millis - (samples i).millis) :
    readingAt initRead samples j = (raw == LOW) := by
  cases j with
  | zero =>
    have : i = 0 := by omega
    subst this
    simp at hheld
  | succ n =>
    have hlct := systemAt_stretch initRead samples (n + 1) hmono i (n + 1) raw
      (Nat.le_refl _) hraw (n + 1 - i) (by omega)
    rw [Nat.add_sub_cancel' hij] at hlct
    have hb := hbound (n + 1) (Nat.le_refl _)
    have hle : (systemAt initRead samples (n + 1)).statics.lastChangeTime
        ≤ (samples (n + 1)).millis := by omega
    rw [readingAt_succ, ulongSub_of_le _ _ hle hb,
      hraw (n + 1) hij (Nat.le_refl _)]
    have : STATE_DEBOUNCE_TIME < (samples (n + 1)).millis -
        (systemAt initRead samples (n + 1)).statics.lastChangeTime := by
      unfold STATE_DEBOUNCE_TIME
      omega
    simp [this]

/-- C5: when the value returned on sample `i + 1` differs from the value returned on
sample `i`, every sample at most 100 ms older than sample `i + 1` carries the pin level
of sample `i + 1`, and the returned value is the leak reading of that level. -/
theorem debounce_glitch_free (initRead : Bool) (samples : Nat → Sample) (i : Nat)
    (hmono : ∀ k, k < i + 1 → (samples k).millis ≤ (samples (k + 1)).millis)
    (hbound : ∀ k, k ≤ i + 1 → (samples k).millis < ULONG_RANGE)
    (hchange : readingAt initRead samples (i + 1) ≠ readingAt initRead samples i) :
    (∀ j, j ≤ i + 1 → (samples (i + 1)).millis - (samples j).millis ≤ 100 →
        (samples j).pin = (samples (i + 1)).pin) ∧
    readingAt initRead samples (i + 1) = ((samples (i + 1)).pin == LOW) := by
  have hle := systemAt_lastChangeTime_le initRead samples (i + 1) hmono (i + 1) (Nat.le_refl _)
  have hb := hbound (i + 1) (Nat.le_refl _)
  have hval := readingAt_succ initRead samples i
  rw [ulongSub_of_le _ _ hle hb] at hval
  by_cases hst : STATE_DEBOUNCE_TIME < (samples (i + 1)).millis -
      (systemAt initRead samples (i + 1)).statics.lastChangeTime
  · rw [if_pos hst] at hval
    refine ⟨?_, hval⟩
    intro j hj hwin
    apply systemAt_window initRead samples (i + 1) hmono (i + 1) (Nat.le_refl _) j hj
    unfold STATE_DEBOUNCE_TIME at hst
    omega
  · rw [if_neg hst] at hval
    exact absurd hval hchange

/-- Witness for `debounce_stability`: the pin is low on samples 0 to 3, 50 ms apart. -/
theorem debounce_stability_witness :
    readingAt HIGH (fun k => ⟨LOW, 1000 + 50 * k⟩) 3 = (LOW == LOW) :=
  debounce_stability HIGH (fun k => ⟨LOW, 1000 + 50 * k⟩) 0 3 LOW
    (by decide) (by decide) (by decide) (fun _ _ _ => rfl) (by decide)

/-- Witness for `debounce_glitch_free`: the pin is high on sample 0 and low from sample 1
on, 50 ms apart; the reading changes on sample 4, to the leak reading of `LOW`. -/
theorem debounce_glitch_free_witness :
    readingAt HIGH (fun k => ⟨k == 0, 1000 + 50 * k⟩) (3 + 1) ≠
      readingAt HIGH (fun k => ⟨k == 0, 1000 + 50 * k⟩) 3 ∧
    readingAt HIGH (fun k => ⟨k == 0, 1000 + 50 * k⟩) (3 + 1) = (LOW == LOW) :=
  ⟨by decide,
    (debounce_glitch_free HIGH (fun k => ⟨k == 0, 1000 + 50 * k⟩) 3
      (by decide) (by decide) (by decide)).2⟩

/-! ## First alerts along a run -/

theorem loopSustained_no_first (g : Globals) (c : Clock) :
    Notification.FirstAlert ∉ (loopSustained g c).2 := by
  unfold loopSustained
  split
  · dsimp only
    split <;> simp [sendLeakageAlert]
  · simp

theorem sentAt_eq_tick (initRead : Bool) (samples : Nat → Sample) (n : Nat) :
    sentAt initRead samples n =
      (tick (systemAt initRead samples n).globals
        ⟨readingAt initRead samples (n + 1), (samples (n + 1)).millis⟩).2 := rfl

theorem systemAt_succ_globals (initRead : Bool) (samples : Nat → Sample) (n : Nat) :
    (systemAt initRead samples (n + 1)).globals =
      (tick (systemAt initRead samples n).globals
        ⟨readingAt initRead samples (n + 1), (samples (n + 1)).millis⟩).1 := rfl

theorem firstAlert_iff_rising (initRead : Bool) (samples : Nat → Sample) (n : Nat) :
    Notification.FirstAlert ∈ sentAt initRead samples n ↔
      (readingAt initRead samples (n + 1) = true ∧ readingAt initRead samples n = false) := by
  rw [sentAt_eq_tick]
  have hf := systemAt_flag initRead samples n
  cases hr : readingAt initRead samples (n + 1) <;> cases hp : readingAt initRead samples n
  · rw [tick_same _ _ (by simp [hf, hp])]
    simpa using loopSustained_no_first _ _
  · rw [tick_recover _ _ (by rw [hf, hp])]
    simp [sendRecoveryNotification]
  · rw [tick_onset _ _ (by rw [hf, hp])]
    simp
  · rw [tick_same _ _ (by simp [hf, hp])]
    simpa using loopSustained_no_first _ _

theorem boot_leak_silent (initRead : Bool) (samples : Nat → Sample)
    (h0 : (systemAt initRead samples 0).globals =
      { Globals.initial with leakageDetected := true })
    (hpin : ∀ n, (samples (n + 1)).pin = LOW) :
    ∀ n, (systemAt initRead samples n).globals =
        { Globals.initial with leakageDetected := true } ∧
      readingAt initRead samples (n + 1) = true ∧
      sentAt initRead samples n = [] := by
  intro n
  induction n with
  | zero =>
    have hr0 : readingAt initRead samples 0 = true := by
      rw [← systemAt_flag, h0]
    have hr1 : readingAt initRead samples 1 = true := by
      rw [readingAt_succ, hpin 0, hr0]
      simp
    refine ⟨h0, hr1, ?_⟩
    rw [sentAt_eq_tick, hr1, tick_same _ _ (by rw [h0]), h0]
    rw [loopSustained_idle _ _ (by simp [Globals.initial])]
  | succ n ih =>
    obtain ⟨hg, hr, -⟩ := ih
    have hg1 : (systemAt initRead samples (n + 1)).globals =
        { Globals.initial with leakageDetected := true } := by
      rw [systemAt_succ_globals, hr, tick_same _ _ (by rw [hg]), hg]
      rw [loopSustained_idle _ _ (by simp [Globals.initial])]
    have hr1 : readingAt initRead samples (n + 1 + 1) = true := by
      rw [readingAt_succ, hpin (n + 1), hr]
      simp
    refine ⟨hg1, hr1, ?_⟩
    rw [sentAt_eq_tick, hr1, tick_same _ _ (by rw [hg1]), hg1]
    rw [loopSustained_idle _ _ (by simp [Globals.initial])]

/-- C1, failing input: `setup()` at 200 ms reads the pin low, so its reading is a leak;
the pin stays low on every later pass, 50 ms apart.  The debounced reading is `true` on
every pass and no notification, in particular no first alert, is ever sent. -/
theorem boot_leak_never_alerted (n : Nat) :
    readingAt LOW (fun k => ⟨LOW, 200 + 50 * k⟩) 0 = true ∧
    readingAt LOW (fun k => ⟨LOW, 200 + 50 * k⟩) (n + 1) = true ∧
    sentAt LOW (fun k => ⟨LOW, 200 + 50 * k⟩) n = [] :=
  ⟨by decide,
    (boot_leak_silent LOW (fun k => ⟨LOW, 200 + 50 * k⟩) (by decide) (fun _ => rfl) n).2⟩

/-! ## Traces of tick sequences -/

theorem runTicks_append (g : Globals) (a b : List Tick) :
    runTicks g (a ++ b) = runTicks (runTicks g a) b := by
  induction a generalizing g with
  | nil => rfl
  | cons t ts ih =>
    rw [List.cons_append]
    simp only [runTicks]
    exact ih _

theorem traceTicks_append (g : Globals) (a b : List Tick) :
    traceTicks g (a ++ b) = traceTicks g a ++ traceTicks (runTicks g a) b := by
  induction a generalizing g with
  | nil => rfl
  | cons t ts ih =>
    rw [List.cons_append]
    simp only [traceTicks, runTicks]
    rw [ih, List.append_assoc]

theorem ticks_quiet (ticks : List Tick) (g : Globals)
    (hsame : ∀ t ∈ ticks, t.currentLeakage = g.leakageDetected)
    (hquiet : ∀ t ∈ ticks, ulongSub t.millis g.lastAlertTime < ALERT_INTERVAL) :
    runTicks g ticks = g ∧ traceTicks g ticks = [] := by
  induction ticks with
  | nil => exact ⟨rfl, rfl⟩
  | cons t ts ih =>
    have h1 : tick g t = (g, []) := by
      rw [tick_same g t (hsame t (List.mem_cons_self _ _))]
      exact loopSustained_quiet g _ (hquiet t (List.mem_cons_self _ _))
    have ih2 := ih (fun u hu => hsame u (List.mem_cons_of_mem _ hu))
      (fun u hu => hquiet u (List.mem_cons_of_mem _ hu))
    simp only [runTicks, traceTicks, h1, List.map_nil, List.nil_append]
    exact ih2

theorem ticks_idle (ticks : List Tick) (g : Globals)
    (hflag : g.leakageDetected = false)
    (hsame : ∀ t ∈ ticks, t.currentLeakage = false) :
    runTicks g ticks = g ∧ traceTicks g ticks = [] := by
  induction ticks with
  | nil => exact ⟨rfl, rfl⟩
  | cons t ts ih =>
    have h1 : tick g t = (g, []) := by
      rw [tick_same g t (by rw [hflag]; exact hsame t (List.mem_cons_self _ _))]
      exact loopSustained_idle g _ (by simp [hflag])
    have ih2 := ih (fun u hu => hsame u (List.mem_cons_of_mem _ hu))
    simp only [runTicks, traceTicks, h1, List.map_nil, List.nil_append]
    exact ih2

theorem range_split : List.range 1301 =
    [0] ++ List.range' 1 599 ++ [600] ++ List.range' 601 599 ++ [1200] ++
      List.range' 1201 100 := by
  have e0 : [0] = List.range' 0 1 := rfl
  have e1 : [600] = List.range' 600 1 := rfl
  have e2 : [1200] = List.range' 1200 1 := rfl
  rw [List.range_eq_range', e0, e1, e2]
  rw [List.range'_append_1 0 1 599, List.range'_append_1 0 600 1,
    List.range'_append_1 0 601 599, List.range'_append_1 0 1200 1,
    List.range'_append_1 0 1201 100]

theorem traceTicks_skip (g : Globals) (a b : List Tick)
    (h : runTicks g a = g ∧ traceTicks g a = []) :
    traceTicks g (a ++ b) = traceTicks g b := by
  rw [traceTicks_append, h.1, h.2, List.nil_append]

theorem traceTicks_cons (g : Globals) (t : Tick) (ts : List Tick) :
    traceTicks g (t :: ts) =
      (tick g t).2.map (fun n => (t.millis, n)) ++ traceTicks (tick g t).1 ts := rfl

theorem ulongSub_add (T d : Nat) (h : T + d < ULONG_RANGE) : ulongSub (T + d) T = d := by
  rw [ulongSub_of_le _ _ (Nat.le_add_right _ _) h, Nat.add_sub_cancel_left]

theorem stretch_quiet (g : Globals) (T A a n : Nat)
    (hflag : g.leakageDetected = true) (hlast : g.lastAlertTime = T + A)
    (hlo : A ≤ 50 * a) (hhi : 50 * (a + n) < A + 30050)
    (hb : T + 50 * (a + n) < ULONG_RANGE + 50) :
    runTicks g ((List.range' a n).map (fun k => (⟨true, T + 50 * k⟩ : Tick))) = g ∧
    traceTicks g ((List.range' a n).map (fun k => (⟨true, T + 50 * k⟩ : Tick))) = [] := by
  apply ticks_quiet
  · intro t ht
    obtain ⟨k, -, rfl⟩ := List.mem_map.mp ht
    exact hflag.symm
  · intro t ht
    obtain ⟨k, hk, rfl⟩ := List.mem_map.mp ht
    rw [List.mem_range'_1] at hk
    show ulongSub (T + 50 * k) g.lastAlertTime < ALERT_INTERVAL
    rw [hlast, ulongSub_of_le _ _ (by omega) (by omega)]
    unfold ALERT_INTERVAL
    omega

/-- C10: from the initial state, after any number of ticks without a leak, let the
debounced input be `true` on the ticks `T, T + 50, ..., T + 65000` (with `T > 0`) and
`false` on the following tick `T'`.  The notifications sent are, in order, the first
alert at `T`, reminders at `T + 30000` and `T + 60000` with durations 30000 and 60000,
and the recovery at `T'` with duration `T' - T`; nothing else is sent. -/
theorem sustained_leak_scenario (before : List Nat) (T T' : Nat)
    (hT : 0 < T) (hT' : T + 65000 ≤ T') (hb : T' < ULONG_RANGE) :
    traceTicks Globals.initial
      (before.map (fun t => (⟨false, t⟩ : Tick)) ++
        (List.range 1301).map (fun k => (⟨true, T + 50 * k⟩ : Tick)) ++
        [⟨false, T'⟩]) =
    [(T, Notification.FirstAlert),
     (T + 30000, Notification.RepeatAlert 30000),
     (T + 60000, Notification.RepeatAlert 60000),
     (T', Notification.Recovery (T' - T))] := by
  obtain ⟨g1, hg1⟩ : ∃ g1 : Globals, g1 =
      { leakageState := LeakageState.STATE_LEAKAGE_DETECTED
        lastReportedState := LeakageState.STATE_NORMAL
        leakStartTime := T, lastAlertTime := T, lastStateChangeTime := T
        isFirstAlert := true, leakageDetected := true } := ⟨_, rfl⟩
  obtain ⟨g2, hg2⟩ : ∃ g2 : Globals, g2 =
      { g1 with lastAlertTime := T + 30000, isFirstAlert := false } := ⟨_, rfl⟩
  obtain ⟨g3, hg3⟩ : ∃ g3 : Globals, g3 =
      { g2 with lastAlertTime := T + 60000, isFirstAlert := false } := ⟨_, rfl⟩
  have hidle := ticks_idle (before.map (fun t => (⟨false, t⟩ : Tick))) Globals.initial rfl
    (by
      intro t ht
      obtain ⟨k, -, rfl⟩ := List.mem_map.mp ht
      rfl)
  have h1 : tick Globals.initial ⟨true, T⟩ = (g1, [Notification.FirstAlert]) := by
    rw [tick_onset Globals.initial T rfl, hg1]
    rfl
  have hA := stretch_quiet g1 T 0 1 599 (by simp [hg1]) (by simp [hg1]) (by omega) (by omega)
    (by omega)
  have h2 : tick g1 ⟨true, T + 30000⟩ = (g2, [Notification.RepeatAlert 30000]) := by
    have e : ulongSub (T + 30000) T = 30000 := ulongSub_add T 30000 (by omega)
    rw [tick_same g1 _ (by simp [hg1]),
      loopSustained_fire g1 _ (by simp [hg1]) (by simp [hg1])
        (by rw [hg1]; simp [Clock.uniform, e, ALERT_INTERVAL])]
    rw [hg2, hg1]
    simp [Clock.uniform, e]
  have hB := stretch_quiet g2 T 30000 601 599 (by simp [hg2, hg1]) (by simp [hg2])
    (by omega) (by omega) (by omega)
  have h3 : tick g2 ⟨true, T + 60000⟩ = (g3, [Notification.RepeatAlert 60000]) := by
    have e : ulongSub (T + 60000) T = 60000 := ulongSub_add T 60000 (by omega)
    have e2 : ulongSub (T + 60000) (T + 30000) = 30000 := by
      rw [ulongSub_of_le _ _ (by omega) (by omega)]
      omega
    rw [tick_same g2 _ (by simp [hg2, hg1]),
      loopSustained_fire g2 _ (by simp [hg2, hg1]) (by simp [hg2, hg1])
        (by rw [hg2]; simp [Clock.uniform, e2, ALERT_INTERVAL])]
    rw [hg3, hg2, hg1]
    simp [Clock.uniform, e]
  have hC := stretch_quiet g3 T 60000 1201 100 (by simp [hg3, hg2, hg1]) (by simp [hg3])
    (by omega) (by omega) (by omega)
  have h4 : (tick g3 ⟨false, T'⟩).2 = [Notification.Recovery (T' - T)] := by
    rw [tick_recover g3 T' (by simp [hg3, hg2, hg1])]
    have e : g3.leakStartTime = T := by simp [hg3, hg2, hg1]
    simp only [e, sendRecoveryNotification, hT, if_true]
    rw [ulongSub_of_le _ _ (by omega) hb]
  have hlist : before.map (fun t => (⟨false, t⟩ : Tick)) ++
        (List.range 1301).map (fun k => (⟨true, T + 50 * k⟩ : Tick)) ++ [⟨false, T'⟩] =
      before.map (fun t => (⟨false, t⟩ : Tick)) ++
        (⟨true, T⟩ :: ((List.range' 1 599).map (fun k => (⟨true, T + 50 * k⟩ : Tick)) ++
        (⟨true, T + 30000⟩ :: ((List.range' 601 599).map (fun k => (⟨true, T + 50 * k⟩ : Tick)) ++
        (⟨true, T + 60000⟩ :: ((List.range' 1201 100).map (fun k => (⟨true, T + 50 * k⟩ : Tick)) ++
        [⟨false, T'⟩])))))) := by
    rw [range_split]
    simp only [List.map_append, List.map_cons, List.map_nil, List.append_assoc,
      List.cons_append, List.nil_append, Nat.mul_zero, Nat.add_zero, Nat.reduceMul]
  rw [hlist, traceTicks_skip _ _ _ hidle, traceTicks_cons, h1, traceTicks_skip _ _ _ hA,
    traceTicks_cons, h2, traceTicks_skip _ _ _ hB, traceTicks_cons, h3,
    traceTicks_skip _ _ _ hC, traceTicks_cons, h4]
  rfl

/-- Witness for `sustained_leak_scenario`: `T = 1000`, `T' = 66050`, two ticks before. -/
theorem sustained_leak_scenario_witness :
    traceTicks Globals.initial
      ([50, 100].map (fun t => (⟨false, t⟩ : Tick)) ++
        (List.range 1301).map (fun k => (⟨true, 1000 + 50 * k⟩ : Tick)) ++
        [⟨false, 66050⟩]) =
    [(1000, Notification.FirstAlert),
     (1000 + 30000, Notification.RepeatAlert 30000),
     (1000 + 60000, Notification.RepeatAlert 60000),
     (66050, Notification.Recovery (66050 - 1000))] :=
  sustained_leak_scenario [50, 100] 1000 66050 (by decide) (by decide) (by decide)

/-! ## Onset, threshold and frame -/

/-- C12: in a state whose flag is clear, a tick with input `true` at `now` sets the flag,
`STATE_LEAKAGE_DETECTED`, `leakStartTime = now`, `lastAlertTime = now` and
`isFirstAlert = true`, and sends exactly the first alert, whose text carries no
duration. -/
theorem leak_onset_step (g : Globals) (now : Nat) (hflag : g.leakageDetected = false) :
    (tick g ⟨true, now⟩).1.leakageDetected = true ∧
    (tick g ⟨true, now⟩).1.leakageState = LeakageState.STATE_LEAKAGE_DETECTED ∧
    (tick g ⟨true, now⟩).1.leakStartTime = now ∧
    (tick g ⟨true, now⟩).1.lastAlertTime = now ∧
    (tick g ⟨true, now⟩).1.isFirstAlert = true ∧
    (tick g ⟨true, now⟩).2 = [Notification.FirstAlert] ∧
    Notification.FirstAlert.message =
      utf8 "🚨 检测到水泄漏！\n" ++ utf8 "发现泄露！请立即处理！" := by
  rw [tick_onset g now hflag]
  exact ⟨rfl, rfl, rfl, rfl, rfl, rfl, rfl⟩

/-- Witness for `leak_onset_step`: the first tick after start, at 5000 ms. -/
theorem leak_onset_step_witness :
    (tick Globals.initial ⟨true, 5000⟩).2 = [Notification.FirstAlert] :=
  (leak_onset_step Globals.initial 5000 rfl).2.2.2.2.2.1

/-- C13: after the transition update of the statics, `checkLeakageState` returns the leak
reading of the raw level when the unsigned difference `now - lastChangeTime` is greater
than 100 and the held output otherwise; with the level unchanged since `a`, the held
output is returned at `a + 100` and the leak reading at `a + 101`. -/
theorem strict_threshold (st : Statics) (held raw : Bool) (now : Nat) :
    (checkLeakageState st held raw now).2 =
      (if raw = st.lastState then st else { lastState := raw, lastChangeTime := now }) ∧
    (100 < ulongSub now (checkLeakageState st held raw now).2.lastChangeTime →
      (checkLeakageState st held raw now).1 = (raw == LOW)) ∧
    (ulongSub now (checkLeakageState st held raw now).2.lastChangeTime ≤ 100 →
      (checkLeakageState st held raw now).1 = held) ∧
    (∀ a, a + 101 < ULONG_RANGE →
      (checkLeakageState ⟨raw, a⟩ held raw (a + 100)).1 = held ∧
      (checkLeakageState ⟨raw, a⟩ held raw (a + 101)).1 = (raw == LOW)) := by
  refine ⟨checkLeakageState_statics st held raw now, ?_, ?_, ?_⟩
  · intro h
    rw [checkLeakageState_value]
    simp [STATE_DEBOUNCE_TIME, h]
  · intro h
    rw [checkLeakageState_value]
    simp [STATE_DEBOUNCE_TIME, Nat.not_lt.mpr h]
  · intro a ha
    constructor
    · rw [checkLeakageState_value, checkLeakageState_statics]
      simp [STATE_DEBOUNCE_TIME, ulongSub_add a 100 (by omega)]
    · rw [checkLeakageState_value, checkLeakageState_statics]
      simp [STATE_DEBOUNCE_TIME, ulongSub_add a 101 (by omega)]

theorem runTicks_steady (mid : List Tick) (g : Globals)
    (hflag : g.leakageDetected = true)
    (hmid : ∀ t ∈ mid, t.currentLeakage = true) :
    (runTicks g mid).leakageDetected = true ∧
    (runTicks g mid).leakageState = g.leakageState ∧
    (runTicks g mid).leakStartTime = g.leakStartTime := by
  induction mid generalizing g with
  | nil => exact ⟨hflag, rfl, rfl⟩
  | cons t ts ih =>
    have ht := hmid t (List.mem_cons_self _ _)
    have h1 := tick_same g t (by rw [ht, hflag])
    obtain ⟨f1, f2, f3⟩ := loopSustained_frame g (Clock.uniform t.millis)
    rw [← h1] at f1 f2 f3
    have ih2 := ih (tick g t).1 (by rw [f1, hflag])
      (fun u hu => hmid u (List.mem_cons_of_mem _ hu))
    simp only [runTicks]
    rw [ih2.2.1, ih2.2.2, f2, f3]
    exact ⟨ih2.1, rfl, rfl⟩

/-- C14: a tick whose input equals the flag leaves `leakStartTime`, `leakageState` and
`leakageDetected` unchanged; so after a rising edge at `t0 > 0` and any ticks with the
input still `true`, the falling edge at `t1` sends the recovery with duration
`t1 - t0`. -/
theorem recovery_duration_framed (g : Globals) (t0 t1 : Nat) (mid : List Tick)
    (hflag : g.leakageDetected = false) (ht0 : 0 < t0)
    (hmid : ∀ t ∈ mid, t.currentLeakage = true)
    (hle : t0 ≤ t1) (hb : t1 < ULONG_RANGE) :
    (∀ (g1 : Globals) (t : Tick), t.currentLeakage = g1.leakageDetected →
      (tick g1 t).1.leakStartTime = g1.leakStartTime ∧
      (tick g1 t).1.leakageState = g1.leakageState ∧
      (tick g1 t).1.leakageDetected = g1.leakageDetected) ∧
    (tick (runTicks g (⟨true, t0⟩ :: mid)) ⟨false, t1⟩).2 =
      [Notification.Recovery (t1 - t0)] := by
  constructor
  · intro g1 t ht
    rw [tick_same g1 t ht]
    obtain ⟨f1, f2, f3⟩ := loopSustained_frame g1 (Clock.uniform t.millis)
    exact ⟨f3, f2, f1⟩
  · have h0 := tick_onset g t0 hflag
    have hs := runTicks_steady mid (tick g ⟨true, t0⟩).1 (by rw [h0]) hmid
    simp only [runTicks]
    rw [tick_recover _ t1 hs.1, hs.2.2, h0]
    simp only [sendRecoveryNotification, ht0, if_true]
    rw [ulongSub_of_le _ _ hle hb]

/-- Witness for `recovery_duration_framed`: onset at 1000 ms, a reminder at 31000 ms,
recovery at 40000 ms. -/
theorem recovery_duration_framed_witness :
    (tick (runTicks Globals.initial (⟨true, 1000⟩ :: [⟨true, 1050⟩, ⟨true, 31000⟩]))
      ⟨false, 40000⟩).2 = [Notification.Recovery (40000 - 1000)] :=
  (recovery_duration_framed Globals.initial 1000 40000 [⟨true, 1050⟩, ⟨true, 31000⟩]
    rfl (by decide) (by decide) (by decide) (by decide)).2

/-! ## `STATE_RECOVERED` against `STATE_NORMAL` -/

theorem collapse_detected (st : LeakageState) :
    (st.collapse == LeakageState.STATE_LEAKAGE_DETECTED) =
      (st == LeakageState.STATE_LEAKAGE_DETECTED) := by
  cases st <;> rfl

theorem loopStateChange_collapse (g : Globals) (currentLeakage : Bool) (c : Clock) :
    (loopStateChange g.collapse currentLeakage c).2 = (loopStateChange g currentLeakage c).2 ∧
    (loopStateChange g.collapse currentLeakage c).1.collapse =
      (loopStateChange g currentLeakage c).1.collapse := by
  unfold loopStateChange
  by_cases h : currentLeakage = g.leakageDetected
  · simp [h, Globals.collapse]
    cases g.leakageState <;> rfl
  · have hb : (currentLeakage != g.leakageDetected) = true := by simpa using h
    have hb2 : (currentLeakage != g.collapse.leakageDetected) = true := hb
    simp only [hb, hb2, if_true]
    cases currentLeakage <;> simp [Globals.collapse, LeakageState.collapse]

theorem loopSustained_collapse (g : Globals) (c : Clock) :
    (loopSustained g.collapse c).2 = (loopSustained g c).2 ∧
    (loopSustained g.collapse c).1.collapse = (loopSustained g c).1.collapse := by
  unfold loopSustained
  have h1 : g.collapse.leakageDetected = g.leakageDetected := rfl
  have h2 : g.collapse.lastAlertTime = g.lastAlertTime := rfl
  have h3 : g.collapse.leakStartTime = g.leakStartTime := rfl
  have h4 : g.collapse.leakageState = g.leakageState.collapse := rfl
  rw [h1, h2, h3, h4, collapse_detected]
  split
  · dsimp only
    split
    · constructor
      · rfl
      · simp [Globals.collapse]
        cases g.leakageState <;> rfl
    · constructor
      · rfl
      · simp [Globals.collapse]
        cases g.leakageState <;> rfl
  · constructor
    · rfl
    · simp [Globals.collapse]
      cases g.leakageState <;> rfl

theorem loopBody_collapse_congr (g1 g2 : Globals) (h : g1.collapse = g2.collapse)
    (currentLeakage : Bool) (c : Clock) :
    (loopBody g1 currentLeakage c).2 = (loopBody g2 currentLeakage c).2 ∧
    (loopBody g1 currentLeakage c).1.collapse = (loopBody g2 currentLeakage c).1.collapse := by
  have a1 := loopStateChange_collapse g1 currentLeakage c
  have a2 := loopStateChange_collapse g2 currentLeakage c
  rw [h] at a1
  have e2 : (loopStateChange g1 currentLeakage c).2 = (loopStateChange g2 currentLeakage c).2 :=
    a1.1.symm.trans a2.1
  have e1 : (loopStateChange g1 currentLeakage c).1.collapse =
      (loopStateChange g2 currentLeakage c).1.collapse := a1.2.symm.trans a2.2
  have b1 := loopSustained_collapse (loopStateChange g1 currentLeakage c).1 c
  have b2 := loopSustained_collapse (loopStateChange g2 currentLeakage c).1 c
  rw [e1] at b1
  simp only [loopBody]
  exact ⟨by rw [e2, b1.1.symm.trans b2.1], b1.2.symm.trans b2.2⟩

theorem runTicks_collapse_congr (ticks : List Tick) (g1 g2 : Globals)
    (h : g1.collapse = g2.collapse) :
    (runTicks g1 ticks).collapse = (runTicks g2 ticks).collapse := by
  induction ticks generalizing g1 g2 with
  | nil => exact h
  | cons t ts ih =>
    simp only [runTicks]
    exact ih _ _ (loopBody_collapse_congr g1 g2 h _ _).2

/-- C15: two states that differ only in `leakageState`, `STATE_NORMAL` in one and
`STATE_RECOVERED` in the other, stay equal up to that relabelling after any sequence of
ticks and send the same notifications on every following tick. -/
theorem recovered_as_normal (g1 g2 : Globals)
    (hrec : g2.leakageState = LeakageState.STATE_RECOVERED)
    (hdiff : g1 = { g2 with leakageState := LeakageState.STATE_NORMAL })
    (ticks : List Tick) (t : Tick) :
    (runTicks g1 ticks).collapse = (runTicks g2 ticks).collapse ∧
    (tick (runTicks g1 ticks) t).2 = (tick (runTicks g2 ticks) t).2 ∧
    (tick (runTicks g1 ticks) t).1.collapse = (tick (runTicks g2 ticks) t).1.collapse ∧
    traceTicks g1 ticks = traceTicks g2 ticks := by
  have h0 : g1.collapse = g2.collapse := by
    rw [hdiff]
    simp [Globals.collapse, hrec, LeakageState.collapse]
  have hrun := runTicks_collapse_congr ticks g1 g2 h0
  have hstep := loopBody_collapse_congr _ _ hrun t.currentLeakage (Clock.uniform t.millis)
  refine ⟨hrun, hstep.1, hstep.2, ?_⟩
  clear hrun hstep hdiff hrec
  induction ticks generalizing g1 g2 with
  | nil => rfl
  | cons u us ih =>
    have hu := loopBody_collapse_congr g1 g2 h0 u.currentLeakage (Clock.uniform u.millis)
    simp only [traceTicks, tick]
    rw [hu.1, ih _ _ hu.2]

/-- Witness for `recovered_as_normal`: from the state after a recovery and its relabelled
twin, a new leak is reported alike. -/
theorem recovered_as_normal_witness :
    (tick (runTicks { Globals.initial with leakageState := LeakageState.STATE_NORMAL }
        [⟨false, 50⟩]) ⟨true, 100⟩).2 =
      (tick (runTicks { Globals.initial with leakageState := LeakageState.STATE_RECOVERED }
        [⟨false, 50⟩]) ⟨true, 100⟩).2 :=
  (recovered_as_normal _ { Globals.initial with leakageState := LeakageState.STATE_RECOVERED }
    rfl rfl [⟨false, 50⟩] ⟨true, 100⟩).2.1

/-! ## The transport does not feed back -/

theorem loopBodyDeliver_attempts (e : Int → String) (net : Delivery) (g : Globals)
    (currentLeakage : Bool) (c : Clock) :
    (loopBodyDeliver e net g currentLeakage c).1 = (loopBody g currentLeakage c).1 ∧
    (loopBodyDeliver e net g currentLeakage c).2.map Prod.fst =
      (loopBody g currentLeakage c).2 := by
  simp [loopBodyDeliver, List.map_map, Function.comp_def]

theorem runDeliver_state (e : Int → String) (dts : List (Delivery × Tick)) (g : Globals) :
    (runDeliver e g dts).1 = runTicks g (dts.map Prod.snd) ∧
    (runDeliver e g dts).2.map (fun l => l.map Prod.fst) =
      sentTicks g (dts.map Prod.snd) := by
  induction dts generalizing g with
  | nil => exact ⟨rfl, rfl⟩
  | cons d rest ih =>
    obtain ⟨net, t⟩ := d
    have h := loopBodyDeliver_attempts e net g t.currentLeakage (Clock.uniform t.millis)
    have ih2 := ih (loopBodyDeliver e net g t.currentLeakage (Clock.uniform t.millis)).1
    simp only [runDeliver, List.map_cons, runTicks, sentTicks, tick]
    rw [ih2.1, ih2.2, h.1, h.2]
    exact ⟨rfl, rfl⟩

/-- C16: the globals after a pass and the notifications it attempts do not depend on what
`sendToWechatWebhook` meets (WiFi down, connection failure, any HTTP code); along a run,
two assignments of delivery outcomes to the same ticks end in the same globals and
attempt the same notifications tick by tick, so a failed delivery is not retried.  The
outcome only changes what is posted and logged. -/
theorem delivery_no_feedback (e : Int → String) (g : Globals) (currentLeakage : Bool)
    (c : Clock) (net1 net2 : Delivery) (dts1 dts2 : List (Delivery × Tick))
    (hticks : dts1.map Prod.snd = dts2.map Prod.snd) :
    (loopBodyDeliver e net1 g currentLeakage c).1 =
      (loopBodyDeliver e net2 g currentLeakage c).1 ∧
    (loopBodyDeliver e net1 g currentLeakage c).2.map Prod.fst =
      (loopBodyDeliver e net2 g currentLeakage c).2.map Prod.fst ∧
    (runDeliver e g dts1).1 = (runDeliver e g dts2).1 ∧
    (runDeliver e g dts1).2.map (fun l => l.map Prod.fst) =
      (runDeliver e g dts2).2.map (fun l => l.map Prod.fst) ∧
    (∀ m, (sendToWechatWebhook e Delivery.wifiDisconnected m).posted = none ∧
      (sendToWechatWebhook e Delivery.connectFailed m).posted = none ∧
      (sendToWechatWebhook e (Delivery.response HTTP_CODE_OK) m).posted ≠ none) := by
  have a1 := loopBodyDeliver_attempts e net1 g currentLeakage c
  have a2 := loopBodyDeliver_attempts e net2 g currentLeakage c
  have r1 := runDeliver_state e dts1 g
  have r2 := runDeliver_state e dts2 g
  refine ⟨a1.1.trans a2.1.symm, a1.2.trans a2.2.symm, ?_, ?_, ?_⟩
  · rw [r1.1, r2.1, hticks]
  · rw [r1.2, r2.2, hticks]
  · intro m
    simp [sendToWechatWebhook]

/-- Witness for `delivery_no_feedback`: a leak onset and the next tick, once with the WiFi
down and once with both deliveries accepted. -/
theorem delivery_no_feedback_witness :
    (runDeliver (fun _ => "") Globals.initial
      [(Delivery.wifiDisconnected, ⟨true, 1000⟩), (Delivery.wifiDisconnected, ⟨true, 1050⟩)]).1 =
    (runDeliver (fun _ => "") Globals.initial
      [(Delivery.response 200, ⟨true, 1000⟩), (Delivery.response 200, ⟨true, 1050⟩)]).1 :=
  (delivery_no_feedback (fun _ => "") Globals.initial true (Clock.uniform 1000)
    Delivery.wifiDisconnected (Delivery.response 200) _ _ rfl).2.2.1

/-! ## Counter wrap -/

/-- C17: for a stored time `a` and an elapsed time `d`, both below `2 ^ 32`, the unsigned
difference taken at `now = (a + d) mod 2 ^ 32` is `d`, also across a wrap; so the
reminder fires exactly when `d ≥ 30000`, the debouncer adopts the raw level exactly when
`d > 100`, and reminder and recovery report the duration `d`. -/
theorem wraparound_tolerance (a d : Nat) (ha : a < ULONG_RANGE) (hd : d < ULONG_RANGE) :
    ulongSub ((a + d) % ULONG_RANGE) a = d ∧
    (∀ (g : Globals) (c : Clock), g.leakageDetected = true →
      g.leakageState = LeakageState.STATE_LEAKAGE_DETECTED →
      g.lastAlertTime = a → c.sustained = (a + d) % ULONG_RANGE →
      ((loopSustained g c).2 ≠ [] ↔ 30000 ≤ d)) ∧
    (∀ held pin : Bool,
      (checkLeakageState ⟨pin, a⟩ held pin ((a + d) % ULONG_RANGE)).1 =
        if 100 < d then pin == LOW else held) ∧
    sendLeakageAlert false ((a + d) % ULONG_RANGE) a = Notification.RepeatAlert d ∧
    (0 < a → sendRecoveryNotification ((a + d) % ULONG_RANGE) a = [Notification.Recovery d]) := by
  have key : ulongSub ((a + d) % ULONG_RANGE) a = d := by
    unfold ulongSub
    unfold ULONG_RANGE at *
    omega
  refine ⟨key, ?_, ?_, ?_, ?_⟩
  · intro g c h1 h2 h3 h4
    by_cases h : 30000 ≤ d
    · rw [loopSustained_fire g c h1 h2 (by rw [h4, h3, key]; exact h)]
      simp [h]
    · rw [loopSustained_quiet g c (by rw [h4, h3, key]; exact Nat.not_le.mp h)]
      simp [h]
  · intro held pin
    rw [checkLeakageState_value, checkLeakageState_statics]
    simp [STATE_DEBOUNCE_TIME, key]
  · simp [sendLeakageAlert, key]
  · intro hpos
    simp [sendRecoveryNotification, hpos, key]

/-- Witness for `wraparound_tolerance`: a time stored 1000 ms before the wrap and 31000 ms
elapsed, so `now` reads 30000. -/
theorem wraparound_tolerance_witness :
    ulongSub ((4294966296 + 31000) % ULONG_RANGE) 4294966296 = 31000 :=
  (wraparound_tolerance 4294966296 31000 (by decide) (by decide)).1

/-! ## The code's debouncer against the specification's -/

theorem sample_refines (d : Debouncer) (st : Statics) (held pin : Bool) (now : Nat)
    (h1 : d.last_raw = (st.lastState == LOW)) (h2 : d.last_change_time = st.lastChangeTime)
    (h3 : d.stable_value = held) :
    (d.sample (pin == LOW) now).last_raw =
      ((checkLeakageState st held pin now).2.lastState == LOW) ∧
    (d.sample (pin == LOW) now).last_change_time =
      (checkLeakageState st held pin now).2.lastChangeTime ∧
    (d.sample (pin == LOW) now).stable_value = (checkLeakageState st held pin now).1 := by
  obtain ⟨lr, lc, sv⟩ := d
  obtain ⟨ls, lt⟩ := st
  simp only at h1 h2 h3
  subst h1 h2 h3
  unfold Debouncer.sample checkLeakageState STATE_DEBOUNCE_TIME
  cases pin <;> cases ls <;> simp [LOW] <;> split <;> simp

theorem debouncerAt_refines (d0 : Debouncer) (initRead : Bool) (samples : Nat → Sample)
    (h1 : d0.last_raw = (initRead == LOW)) (h2 : d0.last_change_time = 0)
    (h0 : (debouncerAt d0 samples 0).stable_value = readingAt initRead samples 0) (n : Nat) :
    (debouncerAt d0 samples n).last_raw =
      ((systemAt initRead samples n).statics.lastState == LOW) ∧
    (debouncerAt d0 samples n).last_change_time =
      (systemAt initRead samples n).statics.lastChangeTime ∧
    (debouncerAt d0 samples n).stable_value = readingAt initRead samples n := by
  induction n with
  | zero =>
    have h := sample_refines d0 (Statics.initial initRead) d0.stable_value
      (samples 0).pin (samples 0).millis h1 h2 rfl
    rw [checkLeakageState_statics] at h
    rw [systemAt_zero_statics, checkLeakageState_statics]
    exact ⟨h.1, h.2.1, h0⟩
  | succ n ih =>
    have h := sample_refines (debouncerAt d0 samples n)
      (systemAt initRead samples n).statics
      (systemAt initRead samples n).globals.leakageDetected
      (samples (n + 1)).pin (samples (n + 1)).millis ih.1 ih.2.1
      (by rw [ih.2.2, systemAt_flag])
    rw [systemAt_succ_statics]
    exact h

theorem debouncerAt_first (firstRaw : Bool) (samples : Nat → Sample) :
    (debouncerAt (Debouncer.initial firstRaw) samples 0).stable_value = firstRaw := by
  simp only [debouncerAt, Debouncer.sample, Debouncer.initial]
  cases firstRaw <;> cases (samples 0).pin <;> simp [LOW, ulongSub_self]

theorem setupReading_of_high (pin : Bool) (now : Nat) :
    setupReading HIGH pin now = false := by
  unfold setupReading
  rw [checkLeakageState_value, checkLeakageState_statics]
  cases pin
  · simp [Statics.initial, HIGH, ulongSub_self, STATE_DEBOUNCE_TIME, Globals.initial]
  · simp [Statics.initial, HIGH, LOW, Globals.initial]

theorem setupReading_stable (raw : Bool) (now : Nat) (hnow : 100 < now)
    (hb : now < ULONG_RANGE) : setupReading raw raw now = (raw == LOW) := by
  simp [setupReading, checkLeakageState, Statics.initial, ulongSub_zero now hb,
    STATE_DEBOUNCE_TIME, hnow]

/-- C18, counterexample: `setup()` at 50 ms with the pin low.  The first call returns
`false`, the flag's initial value, while the specification's debouncer, whose
`stable_value` is initialised from the first raw read, returns `true`. -/
theorem held_output_counterexample :
    readingAt LOW (fun k => ⟨LOW, 50 + 50 * k⟩) 0 = false ∧
    (debouncerAt (Debouncer.initial (LOW == LOW)) (fun k => ⟨LOW, 50 + 50 * k⟩) 0).stable_value
      = true ∧
    readingAt LOW (fun k => ⟨LOW, 50 + 50 * k⟩) 0 ≠
      (debouncerAt (Debouncer.initial (LOW == LOW))
        (fun k => ⟨LOW, 50 + 50 * k⟩) 0).stable_value := by
  decide

/-- C18, amended: at every call of `checkLeakageState` the global `leakageDetected` is
the value the previous call returned (`false` before the first call), so on the branch
that is not yet stable the call returns its previous output.  The specification's
debouncer returns the first raw reading on its first call; the code returns the same
values as that debouncer on every call of a run whose first call returns the leak
reading of the first raw read, which is so when the pin is high at boot and when the
first call is made after 100 ms with the pin level unchanged between the two reads.  In
every run the code returns the values of the specification's step function started with
`stable_value = false`. -/
theorem held_output_is_previous (initRead : Bool) (samples : Nat → Sample) (n : Nat) :
    Globals.initial.leakageDetected = false ∧
    (systemAt initRead samples n).globals.leakageDetected = readingAt initRead samples n ∧
    (ulongSub (samples (n + 1)).millis
        (systemAt initRead samples (n + 1)).statics.lastChangeTime ≤ 100 →
      readingAt initRead samples (n + 1) = readingAt initRead samples n) ∧
    (debouncerAt (Debouncer.initial (initRead == LOW)) samples 0).stable_value
      = (initRead == LOW) ∧
    (readingAt initRead samples 0 = (initRead == LOW) →
      readingAt initRead samples n =
        (debouncerAt (Debouncer.initial (initRead == LOW)) samples n).stable_value) ∧
    (initRead = HIGH → readingAt initRead samples 0 = (initRead == LOW)) ∧
    ((samples 0).pin = initRead → 100 < (samples 0).millis →
      (samples 0).millis < ULONG_RANGE →
      readingAt initRead samples 0 = (initRead == LOW)) ∧
    readingAt initRead samples n =
      (debouncerAt { Debouncer.initial (initRead == LOW) with stable_value := false }
        samples n).stable_value := by
  refine ⟨rfl, systemAt_flag initRead samples n, ?_, debouncerAt_first _ samples,
    ?_, ?_, ?_, ?_⟩
  · intro h
    rw [readingAt_succ, if_neg]
    unfold STATE_DEBOUNCE_TIME
    omega
  · intro h0
    exact (debouncerAt_refines (Debouncer.initial (initRead == LOW)) initRead samples
      rfl rfl (by rw [debouncerAt_first, h0]) n).2.2.symm
  · intro hi
    subst hi
    exact setupReading_of_high _ _
  · intro hp hnow hb
    have h := setupReading_stable initRead (samples 0).millis hnow hb
    show setupReading initRead (samples 0).pin (samples 0).millis = (initRead == LOW)
    rw [hp]
    exact h
  · have hbase : (debouncerAt
        { Debouncer.initial (initRead == LOW) with stable_value := false } samples 0).stable_value
        = readingAt initRead samples 0 :=
      (sample_refines { Debouncer.initial (initRead == LOW) with stable_value := false }
        (Statics.initial initRead) false (samples 0).pin (samples 0).millis rfl rfl rfl).2.2
    exact (debouncerAt_refines _ initRead samples rfl rfl hbase n).2.2.symm

/-! ## The flag and the state -/

theorem tick_flag_state (g : Globals) (t : Tick)
    (h : g.leakageDetected = true ↔ g.leakageState = LeakageState.STATE_LEAKAGE_DETECTED) :
    (tick g t).1.leakageDetected = true ↔
      (tick g t).1.leakageState = LeakageState.STATE_LEAKAGE_DETECTED := by
  obtain ⟨cl, now⟩ := t
  by_cases hedge : cl = g.leakageDetected
  · rw [tick_same g ⟨cl, now⟩ hedge]
    obtain ⟨h1, h2, -⟩ := loopSustained_frame g (Clock.uniform now)
    rw [h1, h2]
    exact h
  · cases cl
    · have hg : g.leakageDetected = true := by
        cases hf : g.leakageDetected
        · exact absurd hf.symm hedge
        · rfl
      rw [tick_recover g now hg]
      simp
    · have hg : g.leakageDetected = false := by
        cases hf : g.leakageDetected
        · rfl
        · exact absurd hf.symm hedge
      rw [tick_onset g now hg]
      simp

theorem flag_state_agree_after_dry_boot (initRead : Bool) (samples : Nat → Sample)
    (h0 : readingAt initRead samples 0 = false) (n : Nat) :
    (systemAt initRead samples n).globals.leakageDetected = true ↔
      (systemAt initRead samples n).globals.leakageState
        = LeakageState.STATE_LEAKAGE_DETECTED := by
  induction n with
  | zero =>
    have hf := systemAt_flag initRead samples 0
    rw [h0] at hf
    rw [hf]
    simp [systemAt, setup, Globals.initial]
  | succ n ih =>
    rw [systemAt_succ_globals]
    exact tick_flag_state _ _ ih

/-- C20, failing input: `setup()` at 200 ms reads the pin low and the pin stays low on
every later pass.  In every state of that run the flag is set while the state still is
`STATE_NORMAL`, so the flag and the state disagree and the reminder block never runs. -/
theorem boot_leak_flag_state_disagree (n : Nat) :
    (systemAt LOW (fun k => ⟨LOW, 200 + 50 * k⟩) n).globals.leakageDetected = true ∧
    (systemAt LOW (fun k => ⟨LOW, 200 + 50 * k⟩) n).globals.leakageState
      = LeakageState.STATE_NORMAL ∧
    ¬ ((systemAt LOW (fun k => ⟨LOW, 200 + 50 * k⟩) n).globals.leakageDetected = true ↔
        (systemAt LOW (fun k => ⟨LOW, 200 + 50 * k⟩) n).globals.leakageState
          = LeakageState.STATE_LEAKAGE_DETECTED) := by
  have h := (boot_leak_silent LOW (fun k => ⟨LOW, 200 + 50 * k⟩) (by decide)
    (fun _ => rfl) n).1
  rw [h]
  decide

/-! ## The duration text and its buffer -/

theorem formatDurationSpec_length_le (ms : Nat) (hms : ms < ULONG_RANGE) :
    (utf8 (formatDurationSpec ms)).length ≤ 20 := by
  have hh : ms / 3600000 < 1200 := by
    unfold ULONG_RANGE at hms
    omega
  have hm : ms / 60000 % 60 < 1200 := by omega
  have hs : ms / 1000 % 60 < 1200 := by omega
  have hm60 : ms / 60000 % 60 < 60 := by omega
  have hs60 : ms / 1000 % 60 < 60 := by omega
  have k1 : (utf8 "小时").length = 6 := by decide
  have k2 : (utf8 "分").length = 3 := by decide
  have k3 : (utf8 "秒").length = 3 := by decide
  have lh := utf8_toString_length _ hh
  have lm := utf8_toString_length _ hm
  have ls := utf8_toString_length _ hs
  unfold formatDurationSpec
  simp only []
  split
  · simp only [utf8_append, List.length_append, k1, k2, k3, lh, lm, ls]
    unfold decimalWidth
    split_ifs <;> omega
  · split
    · simp only [utf8_append, List.length_append, k1, k2, k3, lh, lm, ls]
      unfold decimalWidth
      split_ifs <;> omega
    · simp only [utf8_append, List.length_append, k1, k2, k3, lh, lm, ls]
      unfold decimalWidth
      split_ifs <;> omega

/-- C19, failing input: 4294799999 ms (1192 h 59 min 59 s) is a 32-bit value whose full
rendering has 20 bytes of UTF-8; `snprintf` into the 20-byte buffer keeps 19 of them, so
the string returned is not the complete text. -/
theorem duration_text_exceeds_buffer :
    4294799999 < ULONG_RANGE ∧
    formatDurationSpec 4294799999 = "1192小时59分59秒" ∧
    (utf8 (formatDurationSpec 4294799999)).length = 20 ∧
    (formatDuration 4294799999).length = 19 ∧
    formatDuration 4294799999 = (utf8 (formatDurationSpec 4294799999)).take 19 ∧
    formatDuration 4294799999 ≠ utf8 (formatDurationSpec 4294799999) := by
  refine ⟨by decide, by decide, by decide, by decide, by decide, by decide⟩

/-! ## The debounce scenario -/

theorem loop_dry (st : Statics) (g : Globals) (pin : Bool) (now : Nat)
    (hflag : g.leakageDetected = false)
    (hr : (checkLeakageState st false pin now).1 = false) :
    loopReading ⟨st, g⟩ pin (Clock.uniform now) = false ∧
    loop ⟨st, g⟩ pin (Clock.uniform now) =
      (⟨(checkLeakageState st false pin now).2, g⟩, []) := by
  have hb : loopBody g false (Clock.uniform now) = (g, []) := by
    have h := tick_same g ⟨false, now⟩ hflag.symm
    have h2 := loopSustained_idle g (Clock.uniform now) (by simp [hflag])
    rw [h2] at h
    exact h
  constructor
  · simp only [loopReading, Clock.uniform, hflag]
    exact hr
  · simp only [loop, Clock.uniform, hflag, hr]
    rw [← Clock.uniform, hb]

theorem loop_high (st : Statics) (g : Globals) (now : Nat)
    (hst : st.lastState = HIGH) (hflag : g.leakageDetected = false) :
    loopReading ⟨st, g⟩ HIGH (Clock.uniform now) = false ∧
    loop ⟨st, g⟩ HIGH (Clock.uniform now) = (⟨st, g⟩, []) := by
  have hv : (checkLeakageState st false HIGH now).1 = false := by
    rw [checkLeakageState_value]
    split <;> rfl
  have hs : (checkLeakageState st false HIGH now).2 = st := by
    rw [checkLeakageState_statics, if_pos hst.symm]
  have h := loop_dry st g HIGH now hflag hv
  rw [hs] at h
  exact h

theorem loop_low_first (st : Statics) (g : Globals) (now : Nat)
    (hst : st.lastState = HIGH) (hflag : g.leakageDetected = false) :
    loopReading ⟨st, g⟩ LOW (Clock.uniform now) = false ∧
    loop ⟨st, g⟩ LOW (Clock.uniform now) = (⟨⟨LOW, now⟩, g⟩, []) := by
  have hs : (checkLeakageState st false LOW now).2 = ⟨LOW, now⟩ := by
    rw [checkLeakageState_statics, if_neg (by rw [hst]; decide)]
  have hv : (checkLeakageState st false LOW now).1 = false := by
    rw [checkLeakageState_value, hs]
    simp [ulongSub_self, STATE_DEBOUNCE_TIME]
  have h := loop_dry st g LOW now hflag hv
  rw [hs] at h
  exact h

theorem loop_low_hold (a d : Nat) (g : Globals) (hflag : g.leakageDetected = false)
    (hd : d ≤ 100) (hb : a + d < ULONG_RANGE) :
    loopReading ⟨⟨LOW, a⟩, g⟩ LOW (Clock.uniform (a + d)) = false ∧
    loop ⟨⟨LOW, a⟩, g⟩ LOW (Clock.uniform (a + d)) = (⟨⟨LOW, a⟩, g⟩, []) := by
  have hs : (checkLeakageState ⟨LOW, a⟩ false LOW (a + d)).2 = ⟨LOW, a⟩ := by
    rw [checkLeakageState_statics, if_pos rfl]
  have hv : (checkLeakageState ⟨LOW, a⟩ false LOW (a + d)).1 = false := by
    rw [checkLeakageState_value, hs]
    simp [ulongSub_add a d hb, STATE_DEBOUNCE_TIME, hd]
  have h := loop_dry ⟨LOW, a⟩ g LOW (a + d) hflag hv
  rw [hs] at h
  exact h

theorem loop_low_adopt (a d : Nat) (g : Globals) (hflag : g.leakageDetected = false)
    (hd : 100 < d) (hb : a + d < ULONG_RANGE) :
    loopReading ⟨⟨LOW, a⟩, g⟩ LOW (Clock.uniform (a + d)) = true ∧
    (loop ⟨⟨LOW, a⟩, g⟩ LOW (Clock.uniform (a + d))).2 = [Notification.FirstAlert] := by
  have hv : (checkLeakageState ⟨LOW, a⟩ g.leakageDetected LOW (a + d)).1 = true := by
    rw [checkLeakageState_value, checkLeakageState_statics, if_pos rfl]
    simp [ulongSub_add a d hb, STATE_DEBOUNCE_TIME, hd]
  constructor
  · simp only [loopReading, Clock.uniform]
    exact hv
  · simp only [loop, Clock.uniform, hv]
    rw [← Clock.uniform]
    have h := tick_onset g (a + d) hflag
    simp only [tick] at h
    rw [h]

theorem debounceScenario_five (t0 : Nat) :
    debounceScenario t0 5 =
      [⟨HIGH, t0⟩, ⟨HIGH, t0 + 20⟩, ⟨HIGH, t0 + 40⟩, ⟨LOW, t0 + 60⟩, ⟨LOW, t0 + 60 + 20⟩,
        ⟨LOW, t0 + 60 + 40⟩, ⟨LOW, t0 + 60 + 60⟩, ⟨LOW, t0 + 60 + 80⟩] := rfl

theorem debounceScenario_seven (t0 : Nat) :
    debounceScenario t0 7 =
      [⟨HIGH, t0⟩, ⟨HIGH, t0 + 20⟩, ⟨HIGH, t0 + 40⟩, ⟨LOW, t0 + 60⟩, ⟨LOW, t0 + 60 + 20⟩,
        ⟨LOW, t0 + 60 + 40⟩, ⟨LOW, t0 + 60 + 60⟩, ⟨LOW, t0 + 60 + 80⟩,
        ⟨LOW, t0 + 60 + 100⟩, ⟨LOW, t0 + 60 + 120⟩] := rfl

theorem traceLoop_cons (s : System) (x : Sample) (xs : List Sample) :
    traceLoop s (x :: xs) =
      (loopReading s x.pin (Clock.uniform x.millis),
        (loop s x.pin (Clock.uniform x.millis)).2) ::
      traceLoop (loop s x.pin (Clock.uniform x.millis)).1 xs := rfl

/-- C11, counterexample: from the state after `setup()` at 1000 ms with the pin high,
three samples with the pin high and five with the pin low, 20 ms apart, leave the
debounced reading `false` on all eight passes, and nothing is sent. -/
theorem debounce_scenario_counterexample :
    traceLoop (setup HIGH HIGH 1000) (debounceScenario 1020 5) =
      List.replicate 8 (false, []) := by
  decide

/-- C11, amended: from a no-leak state (last raw level high, flag clear), three no-leak
samples and five leak samples 20 ms apart leave the debounced reading `false` and send
nothing, the leak level having held for 80 ms only; with two more leak samples the
reading becomes `true` on the seventh, 120 ms after the first, and that pass sends the
one first alert of the sequence. -/
theorem debounce_scenario (s : System) (t0 : Nat)
    (hstate : s.statics.lastState = HIGH) (hflag : s.globals.leakageDetected = false)
    (hb : t0 + 180 < ULONG_RANGE) :
    traceLoop s (debounceScenario t0 5) = List.replicate 8 (false, []) ∧
    traceLoop s (debounceScenario t0 7) =
      List.replicate 9 (false, []) ++ [(true, [Notification.FirstAlert])] := by
  obtain ⟨st, g⟩ := s
  simp only at hstate hflag
  have hH := fun now => loop_high st g now hstate hflag
  have hF := loop_low_first st g (t0 + 60) hstate hflag
  have hL := fun d (hd : d ≤ 100) => loop_low_hold (t0 + 60) d g hflag hd (by omega)
  have hA := loop_low_adopt (t0 + 60) 120 g hflag (by omega) (by omega)
  constructor
  · rw [debounceScenario_five]
    simp only [traceLoop_cons, (hH _).1, (hH _).2, hF.1, hF.2,
      (hL 20 (by omega)).1, (hL 20 (by omega)).2, (hL 40 (by omega)).1, (hL 40 (by omega)).2,
      (hL 60 (by omega)).1, (hL 60 (by omega)).2, (hL 80 (by omega)).1, (hL 80 (by omega)).2]
    rfl
  · rw [debounceScenario_seven]
    simp only [traceLoop_cons, (hH _).1, (hH _).2, hF.1, hF.2,
      (hL 20 (by omega)).1, (hL 20 (by omega)).2, (hL 40 (by omega)).1, (hL 40 (by omega)).2,
      (hL 60 (by omega)).1, (hL 60 (by omega)).2, (hL 80 (by omega)).1, (hL 80 (by omega)).2,
      (hL 100 (by omega)).1, (hL 100 (by omega)).2, hA.1, hA.2]
    rfl

/-- Witness for `debounce_scenario`: the state after `setup()` at 1000 ms with the pin
high, first sample at 1020 ms. -/
theorem debounce_scenario_witness :
    traceLoop (setup HIGH HIGH 1000) (debounceScenario 1020 7) =
      List.replicate 9 (false, []) ++ [(true, [Notification.FirstAlert])] :=
  (debounce_scenario (setup HIGH HIGH 1000) 1020 (by decide) (by decide) (by decide)).2

end LeakageDetection
